import Mathlib

/-!
TMF model loader (`Plugins/Tmf/saturn/jo-engine/modelLoader.c`)

A shallow embedding of `ML_LoadMeshWithCustomTextureLoader`, `ML_LoadMesh` and
`ML_BasicTextureLoader`, followed by the properties proved about them.

The C code overlays its structures on the byte stream returned by
`jo_fs_read_file_in_dir` and walks it with a cursor.  The length of the file is
never asked for (the length argument is `JO_NULL`), and no read is guarded, so
the embedding takes the stream as byte memory addressed from `startAddress`:
a file buffer occupies the first addresses and whatever lies behind it in
memory is what a read past its end sees.  Multi-byte fields are read in the
byte order of the target (SH-2, big-endian).
-/

set_option autoImplicit false

namespace ModelLoader

/-! ## Byte stream -/

/-- Byte memory addressed relative to `startAddress`. -/
abbrev Stream := Nat → Nat

/-- A file buffer `B` lying in memory, followed by the bytes `beyond`. -/
def inMemory (B : List Nat) (beyond : Stream) : Stream :=
  fun a => if a < B.length then B.getD a 0 else beyond (a - B.length)

/-- Memory that holds only zero bytes. -/
def zeroMemory : Stream := fun _ => 0

/-- The `unsigned char` at address `a`. -/
def readU8 (s : Stream) (a : Nat) : Nat := s a % 256

/-- The `unsigned short` at address `a`. -/
def readU16 (s : Stream) (a : Nat) : Nat := 256 * readU8 s a + readU8 s (a + 1)

/-- The 32-bit word at address `a`. -/
def readU32 (s : Stream) (a : Nat) : Nat :=
  16777216 * readU8 s a + 65536 * readU8 s (a + 1) + 256 * readU8 s (a + 2) + readU8 s (a + 3)

/-- The `FIXED` (signed 32-bit) value at address `a`: `*((FIXED*)stream)`. -/
def readFIXED (s : Stream) (a : Nat) : Int :=
  if readU32 s a < 2147483648 then (readU32 s a : Int) else (readU32 s a : Int) - 4294967296

/-! ## Engine constants

The engine headers (`jo/jo.h`, SGL `sl_def.h`) are not part of the repository
sources; the constants the loader names are given their values from there. -/

/-- Modelled from the spec: `SINGLE_PLANE`, declared by the engine header (not under src/). -/
def Single_Plane : Nat := 0
/-- Modelled from the spec: `DUAL_PLANE`, declared by the engine header (not under src/). -/
def Dual_Plane : Nat := 1
/-- Modelled from the spec: `SORT_CEN` (sort by centre), declared by the engine header. -/
def SORT_CEN : Nat := 3
/-- Modelled from the spec: `NO_TEXTURE`, declared by the engine header (not under src/). -/
def No_Texture : Nat := 0
/-- Modelled from the spec: `NO_PALET`, declared by the engine header (not under src/). -/
def No_Palet : Nat := 0
/-- Modelled from the spec: `NO_GOURAUD`, declared by the engine header (not under src/). -/
def No_Gouraud : Nat := 0
/-- Modelled from the spec: `NO_OPTION`, declared by the engine header (not under src/). -/
def No_Option : Nat := 0
/-- Modelled from the spec: `CL32KRGB` colour mode, declared by the engine header: `5 << 3`. -/
def CL32KRGB : Nat := 5 <<< 3
/-- Modelled from the spec: `MESH_OFF`, declared by the engine header: `0 << 8`. -/
def MESHoff : Nat := 0 <<< 8
/-- Modelled from the spec: `MESH_ON`, declared by the engine header: `1 << 8`. -/
def MESHon : Nat := 1 <<< 8
/-- Modelled from the spec: `SPR_NOFLIP`, declared by the engine header:
`FUNC_Texture | (UseTexture << 16)`. -/
def sprNoflip : Nat := 2 ||| ((1 <<< 2) <<< 16)
/-- Modelled from the spec: `SPR_POLYGON`, declared by the engine header:
`FUNC_Polygon | ((ECdis | SPdis) << 24)`. -/
def sprPolygon : Nat := 4 ||| (((1 <<< 7) ||| (1 <<< 6)) <<< 24)
/-- Modelled from the spec: the transparent colour key `JO_COLOR_Transparent` of the engine. -/
def JO_COLOR_Transparent : Nat := 0
/-- Modelled from the spec: the engine's RGB packing `JO_COLOR_RGB(R, G, B)` (not under src/):
five bits per channel, red lowest, below the always-set RGB bit `0x8000`. -/
def JO_COLOR_RGB (R G B : Nat) : Nat :=
  0x8000 ||| ((B >>> 3) <<< 10) ||| ((G >>> 3) <<< 5) ||| (R >>> 3)

/-- The number of coordinates of a `POINT`: the engine's `XYZ`. -/
def XYZ : Nat := 3

/-! ## Data model -/

/-- Face flag `Tmf_Face_None` of `TmfFaceFlags`. -/
def Tmf_Face_None : Nat := 0
/-- Face flag `Tmf_Face_Double` of `TmfFaceFlags`. -/
def Tmf_Face_Double : Nat := 1
/-- Face flag `Tmf_Face_Meshed` of `TmfFaceFlags`. -/
def Tmf_Face_Meshed : Nat := 2
/-- Model file type `Tmf_Type_Static` of `TmfType`. -/
def Tmf_Type_Static : Nat := 0

/-- Texture data (image name, diffuse colour): `char FileName[13]; unsigned char color[3]`. -/
structure TmfTexture where
  FileName : List Nat
  color : List Nat
  deriving DecidableEq, Repr

/-- Quad data: `POINT Normal; unsigned short Indexes[4]; unsigned char Flags, Texture,
Reserved[2]`. -/
structure TmfFace where
  Normal : List Int
  Indexes : List Nat
  Flags : Nat
  Texture : Nat
  Reserved : List Nat
  deriving DecidableEq, Repr

/-- Model entry (3D): `unsigned short VerticesCount, FaceCount`. -/
structure TmfModelHeader where
  VerticesCount : Nat
  FaceCount : Nat
  deriving DecidableEq, Repr

/-- Tank model file header. -/
structure TmfHeader where
  Type_ : Nat
  TextureCount : Nat
  ModelCount : Nat
  Reserved : List Nat
  deriving DecidableEq, Repr

/-- Size of the file header, `sizeof(TmfHeader)`. -/
def sizeofTmfHeader : Nat := 8
/-- Size of a descriptor, `sizeof(TmfTexture)`. -/
def sizeofTmfTexture : Nat := 16
/-- Size of a model header, `sizeof(TmfModelHeader)`. -/
def sizeofTmfModelHeader : Nat := 4
/-- Size of a face record, `sizeof(TmfFace)`. -/
def sizeofTmfFace : Nat := 24

/-- Modelled from the spec: the engine's polygon entry (declared outside src/): the normal
and the four vertex indexes the loader stores. -/
structure POLYGON where
  norm : List Int
  Vertices : List Nat
  deriving DecidableEq, Repr

/-- Modelled from the spec: the engine's attribute record (declared outside src/), as the
eight fields the loader hands to `ATTRIBUTE`, in that order. -/
structure ATTR where
  planeKind : Nat
  sortMode : Nat
  textureId : Nat
  color : Nat
  gouraudMode : Nat
  meshMode : Nat
  spriteKind : Nat
  option : Nat
  deriving DecidableEq, Repr

/-- Modelled from the spec: the `data` member of the engine's mesh (declared outside src/). -/
structure PDATA where
  pntbl : List (List Int)
  nbPoint : Nat
  pltbl : List POLYGON
  nbPolygon : Nat
  attbl : List ATTR
  deriving DecidableEq, Repr

/-- Modelled from the spec: the engine's mesh `jo_3d_mesh` (declared outside src/). -/
structure jo_3d_mesh where
  data : PDATA
  deriving DecidableEq, Repr

/-! ## Structure overlays -/

/-- The `TmfHeader` overlaid at address `a`. -/
def readTmfHeader (s : Stream) (a : Nat) : TmfHeader :=
  { Type_ := readU8 s a
    TextureCount := readU8 s (a + 1)
    ModelCount := readU8 s (a + 2)
    Reserved := (List.range 5).map fun k => readU8 s (a + 3 + k) }

/-- The `TmfTexture` overlaid at address `a`. -/
def readTmfTexture (s : Stream) (a : Nat) : TmfTexture :=
  { FileName := (List.range 13).map fun k => readU8 s (a + k)
    color := (List.range 3).map fun k => readU8 s (a + 13 + k) }

/-- The `TmfModelHeader` overlaid at address `a`. -/
def readTmfModelHeader (s : Stream) (a : Nat) : TmfModelHeader :=
  { VerticesCount := readU16 s a
    FaceCount := readU16 s (a + 2) }

/-- The `TmfFace` overlaid at address `a`. -/
def readTmfFace (s : Stream) (a : Nat) : TmfFace :=
  { Normal := (List.range 3).map fun k => readFIXED s (a + 4 * k)
    Indexes := (List.range 4).map fun k => readU16 s (a + 12 + 2 * k)
    Flags := readU8 s (a + 20)
    Texture := readU8 s (a + 21)
    Reserved := (List.range 2).map fun k => readU8 s (a + 22 + k) }

/-- The descriptor table handed to the texture loader: `count` records from `textures`. -/
def textureTable (s : Stream) (textures : Nat) (count : Nat) : List TmfTexture :=
  (List.range count).map fun k => readTmfTexture s (textures + sizeofTmfTexture * k)

/-! ## The loader -/

/-- Conversion of an `int` to `unsigned short`. -/
def toUShort (v : Int) : Nat := (v % 65536).toNat

/-- The attribute of one face (the "Load attributes" block of the face loop). -/
def faceAttribute (faceData : TmfFace) (texture : TmfTexture) (textureOffset : Int) : ATTR :=
  let color : Nat :=
    if texture.FileName.getD 0 0 = 0 then
      toUShort (JO_COLOR_RGB (texture.color.getD 0 0) (texture.color.getD 1 0)
        (texture.color.getD 2 0))
    else No_Palet
  let textureId : Nat :=
    if texture.FileName.getD 0 0 = 0 then No_Texture
    else toUShort ((faceData.Texture : Int) + textureOffset)
  { planeKind := if (faceData.Flags &&& Tmf_Face_Double) ≠ 0 then Dual_Plane else Single_Plane
    sortMode := SORT_CEN
    textureId := textureId
    color := color
    gouraudMode := CL32KRGB ||| No_Gouraud
    meshMode := CL32KRGB ||| (if (faceData.Flags &&& Tmf_Face_Meshed) ≠ 0 then MESHon else MESHoff)
    spriteKind := if texture.FileName.getD 0 0 = 0 then sprPolygon else sprNoflip
    option := No_Option }

/-- One `POINT`: the inner `xyz` loop, advancing the cursor by 4 for each coordinate. -/
def readPoint (s : Stream) : Nat → Nat → List Int × Nat
  | 0, stream => ([], stream)
  | n + 1, stream =>
    let c := readFIXED s stream
    let r := readPoint s n (stream + 4)
    (c :: r.1, r.2)

/-- The "Read vertices" loop: `count` points from the cursor on. -/
def readVertices (s : Stream) : Nat → Nat → List (List Int) × Nat
  | 0, stream => ([], stream)
  | n + 1, stream =>
    let p := readPoint s XYZ stream
    let r := readVertices s n p.2
    (p.1 :: r.1, r.2)

/-- One turn of the "Read quads" loop: the polygon and the attribute of the face at the
cursor, and the cursor behind it. -/
def readFace (s : Stream) (textures : Nat) (textureOffset : Int) (stream : Nat) :
    POLYGON × ATTR × Nat :=
  let faceData := readTmfFace s stream
  let stream1 := stream + sizeofTmfFace
  let texture := readTmfTexture s (textures + sizeofTmfTexture * faceData.Texture)
  ({ norm := (List.range 3).map fun coord => faceData.Normal.getD coord 0
     Vertices := (List.range 4).map fun point => faceData.Indexes.getD point 0 },
   faceAttribute faceData texture textureOffset,
   stream1)

/-- The "Read quads" loop: `count` faces from the cursor on. -/
def readFaces (s : Stream) (textures : Nat) (textureOffset : Int) :
    Nat → Nat → List POLYGON × List ATTR × Nat
  | 0, stream => ([], [], stream)
  | n + 1, stream =>
    let f := readFace s textures textureOffset stream
    let r := readFaces s textures textureOffset n f.2.2
    (f.1 :: r.1, f.2.1 :: r.2.1, r.2.2)

/-- One turn of the model loop: the mesh of the model at the cursor, and the cursor
behind it. -/
def loadModel (s : Stream) (textures : Nat) (textureOffset : Int) (stream : Nat) :
    jo_3d_mesh × Nat :=
  let modelHeader := readTmfModelHeader s stream
  let stream1 := stream + sizeofTmfModelHeader
  let vs := readVertices s modelHeader.VerticesCount stream1
  let fs := readFaces s textures textureOffset modelHeader.FaceCount vs.2
  ({ data :=
      { pntbl := vs.1
        nbPoint := modelHeader.VerticesCount
        pltbl := fs.1
        nbPolygon := modelHeader.FaceCount
        attbl := fs.2.1 } },
   fs.2.2)

/-- The model loop: `count` models from the cursor on. -/
def loadModels (s : Stream) (textures : Nat) (textureOffset : Int) :
    Nat → Nat → List jo_3d_mesh
  | 0, _ => []
  | n + 1, stream =>
    let m := loadModel s textures textureOffset stream
    m.1 :: loadModels s textures textureOffset n m.2

/-- A texture loader: descriptor table, model directory and count, acting on the engine
state `σ` and returning the index of the first loaded texture. -/
abbrev TextureLoader (σ : Type) := List TmfTexture → String → Nat → σ → Int × σ

/-- What a load hands back: the mesh array, `*loaded`, and the engine state. -/
structure LoadResult (σ : Type) where
  meshes : List jo_3d_mesh
  loaded : Nat
  engine : σ

/-- The function `ML_LoadMeshWithCustomTextureLoader`, on the stream read from the file. -/
def ML_LoadMeshWithCustomTextureLoader {σ : Type} (s : Stream) (dir : String)
    (texture_loader : TextureLoader σ) (engine : σ) : LoadResult σ :=
  let header := readTmfHeader s 0
  let stream := sizeofTmfHeader
  let textures := stream
  let t := texture_loader (textureTable s textures header.TextureCount) dir
    header.TextureCount engine
  let textureOffset := t.1
  let stream1 := stream + sizeofTmfTexture * header.TextureCount
  { meshes := loadModels s textures textureOffset header.ModelCount stream1
    loaded := header.ModelCount
    engine := t.2 }

/-- The loop of `ML_BasicTextureLoader` over the descriptors still to visit, carrying
`startIndex`; `jo_sprite_add_tga` is the engine's TGA load. -/
def basicTextureLoop {σ : Type} (jo_sprite_add_tga : String → List Nat → Nat → σ → Int × σ)
    (modelDir : String) : List TmfTexture → Int → σ → Int × σ
  | [], startIndex, engine => (startIndex, engine)
  | texture :: rest, startIndex, engine =>
    if texture.FileName.getD 0 0 ≠ 0 then
      let r := jo_sprite_add_tga modelDir texture.FileName JO_COLOR_Transparent engine
      let loadedAt := r.1
      basicTextureLoop jo_sprite_add_tga modelDir rest
        (if startIndex < 0 then loadedAt else startIndex) r.2
    else
      basicTextureLoop jo_sprite_add_tga modelDir rest startIndex engine

/-- The function `ML_BasicTextureLoader`, over an engine whose TGA load is
`jo_sprite_add_tga`. -/
def ML_BasicTextureLoader {σ : Type} (jo_sprite_add_tga : String → List Nat → Nat → σ → Int × σ) :
    TextureLoader σ :=
  fun texture modelDir count engine =>
    basicTextureLoop jo_sprite_add_tga modelDir (texture.take count) (-1) engine

/-- The function `ML_LoadMesh`. -/
def ML_LoadMesh {σ : Type} (jo_sprite_add_tga : String → List Nat → Nat → σ → Int × σ)
    (s : Stream) (dir : String) (engine : σ) : LoadResult σ :=
  ML_LoadMeshWithCustomTextureLoader s dir (ML_BasicTextureLoader jo_sprite_add_tga) engine

/-! ## The grammar's offsets -/

/-- The bytes a model block at `base` occupies: `4 + 12 * verticesCount + 24 * faceCount`. -/
def modelSize (s : Stream) (base : Nat) : Nat :=
  4 + 12 * readU16 s base + 24 * readU16 s (base + 2)

/-- The offset `base_i` of model `i`:
`8 + 16 * textureCount + sum over j < i of (4 + 12 * verticesCount_j + 24 * faceCount_j)`. -/
def modelBase (s : Stream) : Nat → Nat
  | 0 => 8 + 16 * readU8 s 1
  | i + 1 => modelBase s i + modelSize s (modelBase s i)

/-- The vertex count of model `i`, `ModelHeader[i].verticesCount`. -/
def verticesCount (s : Stream) (i : Nat) : Nat := readU16 s (modelBase s i)

/-- The face count of model `i`, `ModelHeader[i].faceCount`. -/
def faceCount (s : Stream) (i : Nat) : Nat := readU16 s (modelBase s i + 2)

/-- The offset of face record `f` of model `i`. -/
def faceBase (s : Stream) (i f : Nat) : Nat :=
  modelBase s i + 4 + 12 * verticesCount s i + 24 * f

/-- The number of bytes the grammar requires of a stream. -/
def requiredLength (s : Stream) : Nat := modelBase s (readU8 s 2)

/-- A texture loader that loads nothing and answers `base`. -/
def constLoader (base : Int) : TextureLoader Unit := fun _ _ _ e => (base, e)

/-- The texture base a run of the loader works with. -/
def textureBaseOf {σ : Type} (s : Stream) (dir : String) (texture_loader : TextureLoader σ)
    (engine : σ) : Int :=
  (texture_loader (textureTable s 8 (readU8 s 1)) dir (readU8 s 1) engine).1

/-- Modelled from the spec: "the signed 32-bit big-endian value of the 4 bytes": the
two's-complement reading of the bytes `b0 b1 b2 b3`, most significant first. -/
def signedBigEndian32 (b0 b1 b2 b3 : Nat) : Int :=
  ((16777216 * b0 + 65536 * b1 + 256 * b2 + b3 + 2147483648 : Nat) : Int) % 4294967296
    - 2147483648

/-! ## Sample buffers -/

/-- Header `type, textureCount, modelCount` and five reserved zero bytes. -/
def headerBytes (type textureCount modelCount : Nat) : List Nat :=
  [type, textureCount, modelCount, 0, 0, 0, 0, 0]

/-- A face record with zero normal: four indexes, flags, texture index, reserved. -/
def faceBytes (i0 i1 i2 i3 flags texture : Nat) : List Nat :=
  List.replicate 12 0 ++ [0, i0, 0, i1, 0, i2, 0, i3, flags, texture, 0, 0]

/-- One colour-only descriptor (red), one model of four vertices
`(0,0,0) (1,0,0) (1,1,0) (0,-1,0)` and one face `(0,1,2,3)`. -/
def untexturedQuad : List Nat :=
  headerBytes 0 1 1 ++ (List.replicate 13 0 ++ [255, 0, 0]) ++ [0, 4, 0, 1] ++
    ([0, 0, 0, 0, 0, 0, 0, 0, 0, 0, 0, 0] ++ [0, 1, 0, 0, 0, 0, 0, 0, 0, 0, 0, 0] ++
     [0, 1, 0, 0, 0, 1, 0, 0, 0, 0, 0, 0] ++ [0, 0, 0, 0, 255, 255, 0, 0, 0, 0, 0, 0]) ++
    faceBytes 0 1 2 3 0 0

/-- One descriptor `"TEX.TGA"`, one model of no vertex and one face with flags `0x03`
and texture index 0. -/
def texturedQuad : List Nat :=
  headerBytes 0 1 1 ++ ([84, 69, 88, 46, 84, 71, 65] ++ List.replicate 9 0) ++ [0, 0, 0, 1] ++
    faceBytes 0 0 0 0 3 0

/-- A buffer of type 1 with one empty model. -/
def typeOneBuffer : List Nat := headerBytes 1 0 1 ++ [0, 0, 0, 0]

/-- One colour-only descriptor (blue), one model that promises two faces. -/
def twoFaceBuffer : List Nat :=
  headerBytes 0 1 1 ++ (List.replicate 13 0 ++ [0, 0, 255]) ++ [0, 0, 0, 2] ++
    faceBytes 0 0 0 0 1 0 ++ faceBytes 0 0 0 0 2 0

/-- No descriptor, one model with one face of texture index 0, whose normal bytes are
`00 00 00 01 00 00 00 02 00 FF 80 40`. -/
def strayTextureBuffer : List Nat :=
  headerBytes 0 0 1 ++ [0, 0, 0, 1] ++
    ([0, 0, 0, 1, 0, 0, 0, 2, 0, 255, 128, 64] ++ [0, 0, 0, 0, 0, 0, 0, 0, 0, 0, 0, 0])

/-- One colour-only descriptor, one model with a single vertex and one face with
indexes `(0,1,2,3)`. -/
def strayIndexBuffer : List Nat :=
  headerBytes 0 1 1 ++ List.replicate 16 0 ++ [0, 1, 0, 1] ++ List.replicate 12 0 ++
    faceBytes 0 1 2 3 0 0

/-- One descriptor `"A.TGA"` and two models, each with no vertex and one face with
texture index 0 and flags `0x01`. -/
def twoModelBuffer : List Nat :=
  headerBytes 0 1 2 ++ ([65, 46, 84, 71, 65] ++ List.replicate 11 0) ++
    ([0, 0, 0, 1] ++ faceBytes 0 0 0 0 1 0) ++ ([0, 0, 0, 1] ++ faceBytes 0 0 0 0 1 0)

/-- The descriptor `"A.TGA"`. -/
def textureA : TmfTexture :=
  { FileName := [65, 46, 84, 71, 65, 0, 0, 0, 0, 0, 0, 0, 0], color := [0, 0, 0] }

/-- The descriptor `"B.TGA"`. -/
def textureB : TmfTexture :=
  { FileName := [66, 46, 84, 71, 65, 0, 0, 0, 0, 0, 0, 0, 0], color := [0, 0, 0] }

/-- A colour-only descriptor (red). -/
def textureRed : TmfTexture :=
  { FileName := [0, 0, 0, 0, 0, 0, 0, 0, 0, 0, 0, 0, 0], color := [255, 0, 0] }

/-! ## Engines and observers -/

/-- The test `FileName[0] != 0` of a descriptor. -/
def hasFileName (texture : TmfTexture) : Bool := texture.FileName.getD 0 0 != 0

/-- Modelled from the spec: an engine that assigns consecutive indices to successive loads
(the engine's `jo_sprite_add_tga` is not under src/): the state is the next free sprite
index, every load succeeds and takes that index. -/
def countingEngine : String → List Nat → Nat → Nat → Int × Nat :=
  fun _ _ _ next => ((next : Int), next + 1)

/-- An engine that answers each load with the next value of a prepared list (and with -1
once the list is used up); a negative answer stands for a failed load. -/
def queueEngine : String → List Nat → Nat → List Int → Int × List Int :=
  fun _ _ _ answers => (answers.headD (-1), answers.tail)

/-- An engine load that also records each call: directory, file name and colour key. -/
def recordCalls {σ : Type} (jo_sprite_add_tga : String → List Nat → Nat → σ → Int × σ) :
    String → List Nat → Nat → σ × List (String × List Nat × Nat) →
      Int × (σ × List (String × List Nat × Nat)) :=
  fun dir fileName key st =>
    ((jo_sprite_add_tga dir fileName key st.1).1,
     ((jo_sprite_add_tga dir fileName key st.1).2, st.2 ++ [(dir, fileName, key)]))

/-- A texture loader that also records each call: descriptor table, directory and count. -/
def recordLoader {σ : Type} (texture_loader : TextureLoader σ) :
    TextureLoader (σ × List (List TmfTexture × String × Nat)) :=
  fun table dir count st =>
    ((texture_loader table dir count st.1).1,
     ((texture_loader table dir count st.1).2, st.2 ++ [(table, dir, count)]))

/-- An engine load that also records each index it returns, in call order. -/
def recordAnswers {σ : Type} (jo_sprite_add_tga : String → List Nat → Nat → σ → Int × σ) :
    String → List Nat → Nat → σ × List Int → Int × (σ × List Int) :=
  fun dir fileName key st =>
    ((jo_sprite_add_tga dir fileName key st.1).1,
     ((jo_sprite_add_tga dir fileName key st.1).2,
      st.2 ++ [(jo_sprite_add_tga dir fileName key st.1).1]))

/-- The indexes the engine returns to the loads `ML_BasicTextureLoader` makes over the
descriptors `l` from the engine state `engine`, in call order. -/
def loadAnswers {σ : Type} (jo_sprite_add_tga : String → List Nat → Nat → σ → Int × σ)
    (modelDir : String) : List TmfTexture → σ → List Int
  | [], _ => []
  | texture :: rest, engine =>
    if texture.FileName.getD 0 0 ≠ 0 then
      (jo_sprite_add_tga modelDir texture.FileName JO_COLOR_Transparent engine).1 ::
        loadAnswers jo_sprite_add_tga modelDir rest
          (jo_sprite_add_tga modelDir texture.FileName JO_COLOR_Transparent engine).2
    else
      loadAnswers jo_sprite_add_tga modelDir rest engine

/-- The index `ML_BasicTextureLoader` keeps from the engine's answers: the first one that is
not negative, else the last one, else `startIndex`. -/
def keptIndex (answers : List Int) (startIndex : Int) : Int :=
  match answers.find? (fun a => decide (0 ≤ a)) with
  | some a => a
  | none => answers.getLast?.getD startIndex

/-- The index the engine returns for the load `ML_BasicTextureLoader` makes for descriptor
`k` of `table`: the load of its file name in the engine state reached after the
descriptors before it. -/
def engineIndexOf {σ : Type} (jo_sprite_add_tga : String → List Nat → Nat → σ → Int × σ)
    (modelDir : String) (table : List TmfTexture) (engine : σ) (k : Nat) : Int :=
  (jo_sprite_add_tga modelDir (table.getD k textureRed).FileName JO_COLOR_Transparent
    (basicTextureLoop jo_sprite_add_tga modelDir (table.take k) (-1) engine).2).1

/-! ## The cursor and the tables of the loops -/

theorem readPoint_cursor (s : Stream) (n stream : Nat) :
    (readPoint s n stream).2 = stream + 4 * n := by
  induction n generalizing stream with
  | zero => simp [readPoint]
  | succ n ih => simp only [readPoint, ih]; omega

theorem readPoint_length (s : Stream) (n stream : Nat) :
    (readPoint s n stream).1.length = n := by
  induction n generalizing stream with
  | zero => simp [readPoint]
  | succ n ih => simp [readPoint, ih]

theorem readPoint_getElem? (s : Stream) (n stream k : Nat) (hk : k < n) :
    (readPoint s n stream).1[k]? = some (readFIXED s (stream + 4 * k)) := by
  induction n generalizing stream k with
  | zero => omega
  | succ n ih =>
    cases k with
    | zero => simp [readPoint]
    | succ k =>
      simp only [readPoint, List.getElem?_cons_succ]
      rw [ih (stream + 4) k (by omega)]
      congr 2; omega

theorem readVertices_cursor (s : Stream) (n stream : Nat) :
    (readVertices s n stream).2 = stream + 12 * n := by
  induction n generalizing stream with
  | zero => simp [readVertices]
  | succ n ih => simp only [readVertices, ih, readPoint_cursor, XYZ]; omega

theorem readVertices_length (s : Stream) (n stream : Nat) :
    (readVertices s n stream).1.length = n := by
  induction n generalizing stream with
  | zero => simp [readVertices]
  | succ n ih => simp [readVertices, ih]

theorem readVertices_getElem? (s : Stream) (n stream p : Nat) (hp : p < n) :
    (readVertices s n stream).1[p]? = some (readPoint s XYZ (stream + 12 * p)).1 := by
  induction n generalizing stream p with
  | zero => omega
  | succ n ih =>
    cases p with
    | zero => simp [readVertices]
    | succ p =>
      simp only [readVertices, List.getElem?_cons_succ]
      rw [ih _ p (by omega), readPoint_cursor]
      congr 3; simp only [XYZ]; omega

theorem readFace_cursor (s : Stream) (textures : Nat) (textureOffset : Int) (stream : Nat) :
    (readFace s textures textureOffset stream).2.2 = stream + 24 := rfl

theorem readFaces_cursor (s : Stream) (textures : Nat) (textureOffset : Int) (n stream : Nat) :
    (readFaces s textures textureOffset n stream).2.2 = stream + 24 * n := by
  induction n generalizing stream with
  | zero => simp [readFaces]
  | succ n ih => simp only [readFaces, ih, readFace_cursor]; omega

theorem readFaces_length_polygons (s : Stream) (textures : Nat) (textureOffset : Int)
    (n stream : Nat) : (readFaces s textures textureOffset n stream).1.length = n := by
  induction n generalizing stream with
  | zero => simp [readFaces]
  | succ n ih => simp [readFaces, ih]

theorem readFaces_length_attributes (s : Stream) (textures : Nat) (textureOffset : Int)
    (n stream : Nat) : (readFaces s textures textureOffset n stream).2.1.length = n := by
  induction n generalizing stream with
  | zero => simp [readFaces]
  | succ n ih => simp [readFaces, ih]

theorem readFaces_polygon (s : Stream) (textures : Nat) (textureOffset : Int)
    (n stream f : Nat) (hf : f < n) :
    (readFaces s textures textureOffset n stream).1[f]? =
      some (readFace s textures textureOffset (stream + 24 * f)).1 := by
  induction n generalizing stream f with
  | zero => omega
  | succ n ih =>
    cases f with
    | zero => simp [readFaces]
    | succ f =>
      simp only [readFaces, List.getElem?_cons_succ]
      rw [ih _ f (by omega), readFace_cursor]
      congr 3; omega

theorem readFaces_attribute (s : Stream) (textures : Nat) (textureOffset : Int)
    (n stream f : Nat) (hf : f < n) :
    (readFaces s textures textureOffset n stream).2.1[f]? =
      some (readFace s textures textureOffset (stream + 24 * f)).2.1 := by
  induction n generalizing stream f with
  | zero => omega
  | succ n ih =>
    cases f with
    | zero => simp [readFaces]
    | succ f =>
      simp only [readFaces, List.getElem?_cons_succ]
      rw [ih _ f (by omega), readFace_cursor]
      congr 4; omega

theorem loadModel_cursor (s : Stream) (textures : Nat) (textureOffset : Int) (stream : Nat) :
    (loadModel s textures textureOffset stream).2 = stream + modelSize s stream := by
  simp only [loadModel, readFaces_cursor, readVertices_cursor, readTmfModelHeader,
    sizeofTmfModelHeader, modelSize]
  omega

theorem loadModels_length (s : Stream) (textures : Nat) (textureOffset : Int)
    (n stream : Nat) : (loadModels s textures textureOffset n stream).length = n := by
  induction n generalizing stream with
  | zero => simp [loadModels]
  | succ n ih => simp [loadModels, ih]

theorem loadModels_getElem? (s : Stream) (textures : Nat) (textureOffset : Int)
    (n j i : Nat) (hi : i < n) :
    (loadModels s textures textureOffset n (modelBase s j))[i]? =
      some (loadModel s textures textureOffset (modelBase s (j + i))).1 := by
  induction n generalizing j i with
  | zero => omega
  | succ n ih =>
    cases i with
    | zero => simp [loadModels]
    | succ i =>
      simp only [loadModels, List.getElem?_cons_succ, loadModel_cursor]
      have h := ih (j + 1) i (by omega)
      simp only [modelBase] at h
      rw [h]
      congr 4; omega

theorem load_meshes_eq {σ : Type} (s : Stream) (dir : String) (texture_loader : TextureLoader σ)
    (engine : σ) :
    (ML_LoadMeshWithCustomTextureLoader s dir texture_loader engine).meshes =
      loadModels s 8 (textureBaseOf s dir texture_loader engine) (readU8 s 2) (modelBase s 0) := by
  simp [ML_LoadMeshWithCustomTextureLoader, textureBaseOf, readTmfHeader, sizeofTmfHeader,
    sizeofTmfTexture, modelBase]

theorem load_loaded_eq {σ : Type} (s : Stream) (dir : String) (texture_loader : TextureLoader σ)
    (engine : σ) :
    (ML_LoadMeshWithCustomTextureLoader s dir texture_loader engine).loaded = readU8 s 2 := by
  simp [ML_LoadMeshWithCustomTextureLoader, readTmfHeader]

theorem load_getElem? {σ : Type} (s : Stream) (dir : String) (texture_loader : TextureLoader σ)
    (engine : σ) (i : Nat) (hi : i < readU8 s 2) :
    (ML_LoadMeshWithCustomTextureLoader s dir texture_loader engine).meshes[i]? =
      some (loadModel s 8 (textureBaseOf s dir texture_loader engine) (modelBase s i)).1 := by
  rw [load_meshes_eq, loadModels_getElem? s 8 _ _ 0 i hi]
  simp

/-! ## Streams that agree from an address on -/

theorem readU8_congr {s t : Stream} {lo : Nat} (h : ∀ a, lo ≤ a → s a = t a) (a : Nat)
    (ha : lo ≤ a) : readU8 s a = readU8 t a := by
  simp only [readU8, h a ha]

theorem readU16_congr {s t : Stream} {lo : Nat} (h : ∀ a, lo ≤ a → s a = t a) (a : Nat)
    (ha : lo ≤ a) : readU16 s a = readU16 t a := by
  simp only [readU16, readU8_congr h a ha, readU8_congr h (a + 1) (by omega)]

theorem readFIXED_congr {s t : Stream} {lo : Nat} (h : ∀ a, lo ≤ a → s a = t a) (a : Nat)
    (ha : lo ≤ a) : readFIXED s a = readFIXED t a := by
  simp only [readFIXED, readU32, readU8_congr h a ha, readU8_congr h (a + 1) (by omega),
    readU8_congr h (a + 2) (by omega), readU8_congr h (a + 3) (by omega)]

theorem readTmfTexture_congr {s t : Stream} {lo : Nat} (h : ∀ a, lo ≤ a → s a = t a) (a : Nat)
    (ha : lo ≤ a) : readTmfTexture s a = readTmfTexture t a := by
  have h1 : (fun k => readU8 s (a + k)) = fun k => readU8 t (a + k) :=
    funext fun k => readU8_congr h _ (by omega)
  have h2 : (fun k => readU8 s (a + 13 + k)) = fun k => readU8 t (a + 13 + k) :=
    funext fun k => readU8_congr h _ (by omega)
  simp only [readTmfTexture, h1, h2]

theorem readTmfFace_congr {s t : Stream} {lo : Nat} (h : ∀ a, lo ≤ a → s a = t a) (a : Nat)
    (ha : lo ≤ a) : readTmfFace s a = readTmfFace t a := by
  have h1 : (fun k => readFIXED s (a + 4 * k)) = fun k => readFIXED t (a + 4 * k) :=
    funext fun k => readFIXED_congr h _ (by omega)
  have h2 : (fun k => readU16 s (a + 12 + 2 * k)) = fun k => readU16 t (a + 12 + 2 * k) :=
    funext fun k => readU16_congr h _ (by omega)
  have h3 : (fun k => readU8 s (a + 22 + k)) = fun k => readU8 t (a + 22 + k) :=
    funext fun k => readU8_congr h _ (by omega)
  simp only [readTmfFace, h1, h2, h3, readU8_congr h (a + 20) (by omega),
    readU8_congr h (a + 21) (by omega)]

theorem textureTable_congr {s t : Stream} {lo : Nat} (h : ∀ a, lo ≤ a → s a = t a)
    (textures count : Nat) (ht : lo ≤ textures) :
    textureTable s textures count = textureTable t textures count := by
  have h1 : (fun k => readTmfTexture s (textures + sizeofTmfTexture * k)) =
      fun k => readTmfTexture t (textures + sizeofTmfTexture * k) :=
    funext fun k => readTmfTexture_congr h _ (by omega)
  simp only [textureTable, h1]

theorem readPoint_congr {s t : Stream} {lo : Nat} (h : ∀ a, lo ≤ a → s a = t a)
    (n stream : Nat) (hs : lo ≤ stream) : readPoint s n stream = readPoint t n stream := by
  induction n generalizing stream with
  | zero => rfl
  | succ n ih => simp only [readPoint, ih (stream + 4) (by omega), readFIXED_congr h stream hs]

theorem readVertices_congr {s t : Stream} {lo : Nat} (h : ∀ a, lo ≤ a → s a = t a)
    (n stream : Nat) (hs : lo ≤ stream) :
    readVertices s n stream = readVertices t n stream := by
  induction n generalizing stream with
  | zero => rfl
  | succ n ih =>
    have hp := readPoint_congr h XYZ stream hs
    have hc : lo ≤ (readPoint t XYZ stream).2 := by rw [readPoint_cursor]; omega
    simp only [readVertices, hp, ih _ hc]

theorem readFace_congr {s t : Stream} {lo : Nat} (h : ∀ a, lo ≤ a → s a = t a)
    (textures : Nat) (textureOffset : Int) (stream : Nat) (ht : lo ≤ textures)
    (hs : lo ≤ stream) :
    readFace s textures textureOffset stream = readFace t textures textureOffset stream := by
  simp only [readFace, readTmfFace_congr h stream hs,
    readTmfTexture_congr h (textures + sizeofTmfTexture * (readTmfFace t stream).Texture)
      (by omega)]

theorem readFaces_congr {s t : Stream} {lo : Nat} (h : ∀ a, lo ≤ a → s a = t a)
    (textures : Nat) (textureOffset : Int) (n stream : Nat) (ht : lo ≤ textures)
    (hs : lo ≤ stream) :
    readFaces s textures textureOffset n stream = readFaces t textures textureOffset n stream := by
  induction n generalizing stream with
  | zero => rfl
  | succ n ih =>
    have hf := readFace_congr h textures textureOffset stream ht hs
    have hc : lo ≤ (readFace t textures textureOffset stream).2.2 := by
      rw [readFace_cursor]; omega
    simp only [readFaces, hf, ih _ hc]

theorem loadModel_congr {s t : Stream} {lo : Nat} (h : ∀ a, lo ≤ a → s a = t a)
    (textures : Nat) (textureOffset : Int) (stream : Nat) (ht : lo ≤ textures)
    (hs : lo ≤ stream) :
    loadModel s textures textureOffset stream = loadModel t textures textureOffset stream := by
  have h1 : readTmfModelHeader s stream = readTmfModelHeader t stream := by
    simp only [readTmfModelHeader, readU16_congr h stream hs,
      readU16_congr h (stream + 2) (by omega)]
  have h2 := readVertices_congr h (readTmfModelHeader t stream).VerticesCount
    (stream + sizeofTmfModelHeader) (by omega)
  have hc : lo ≤ (readVertices t (readTmfModelHeader t stream).VerticesCount
      (stream + sizeofTmfModelHeader)).2 := by
    rw [readVertices_cursor]; omega
  have h3 := readFaces_congr h textures textureOffset (readTmfModelHeader t stream).FaceCount
    _ ht hc
  simp only [loadModel, h1, h2, h3]

theorem loadModels_congr {s t : Stream} {lo : Nat} (h : ∀ a, lo ≤ a → s a = t a)
    (textures : Nat) (textureOffset : Int) (n stream : Nat) (ht : lo ≤ textures)
    (hs : lo ≤ stream) :
    loadModels s textures textureOffset n stream =
      loadModels t textures textureOffset n stream := by
  induction n generalizing stream with
  | zero => rfl
  | succ n ih =>
    have hm := loadModel_congr h textures textureOffset stream ht hs
    have hc : lo ≤ (loadModel t textures textureOffset stream).2 := by
      rw [loadModel_cursor]; omega
    simp only [loadModels, hm, ih _ hc]

/-! ## Arithmetic of the attribute fields -/

theorem toUShort_natCast (n : Nat) : toUShort (n : Int) = n % 65536 := by
  unfold toUShort; omega

theorem JO_COLOR_RGB_mod_ne_zero (R G B : Nat) : JO_COLOR_RGB R G B % 65536 ≠ 0 := by
  intro h
  have h15 : (JO_COLOR_RGB R G B % 65536).testBit 15 = true := by
    rw [show (65536 : Nat) = 2 ^ 16 from rfl, Nat.testBit_mod_two_pow]
    simp only [JO_COLOR_RGB, Nat.testBit_or, show Nat.testBit 0x8000 15 = true from by decide, Bool.true_or, decide_True, Bool.and_true, show (15 < 16) from by decide]
  rw [h] at h15
  simp at h15

theorem JO_COLOR_RGB_lt (R G B : Nat) (hR : R < 256) (hG : G < 256) (hB : B < 256) :
    JO_COLOR_RGB R G B < 65536 := by
  unfold JO_COLOR_RGB
  have e : (65536 : Nat) = 2 ^ 16 := rfl
  rw [e]
  refine Nat.or_lt_two_pow (Nat.or_lt_two_pow (Nat.or_lt_two_pow (by decide) ?_) ?_) ?_
  · rw [Nat.shiftLeft_eq, Nat.shiftRight_eq_div_pow]; omega
  · rw [Nat.shiftLeft_eq, Nat.shiftRight_eq_div_pow]; omega
  · rw [Nat.shiftRight_eq_div_pow]; omega

theorem readU8_lt (s : Stream) (a : Nat) : readU8 s a < 256 :=
  Nat.mod_lt _ (by decide)

theorem readFIXED_eq_signedBigEndian32 (s : Stream) (a : Nat) :
    readFIXED s a =
      signedBigEndian32 (readU8 s a) (readU8 s (a + 1)) (readU8 s (a + 2)) (readU8 s (a + 3)) := by
  have h0 := readU8_lt s a
  have h1 := readU8_lt s (a + 1)
  have h2 := readU8_lt s (a + 2)
  have h3 := readU8_lt s (a + 3)
  unfold readFIXED readU32 signedBigEndian32
  split <;> omega

theorem land_one_of_land_three {a b : Nat} (h : a &&& 3 = b &&& 3) : a &&& 1 = b &&& 1 := by
  have e : ∀ x : Nat, x &&& 1 = (x &&& 3) &&& 1 := fun x => by
    rw [Nat.land_assoc]; rfl
  rw [e a, e b, h]

theorem land_two_of_land_three {a b : Nat} (h : a &&& 3 = b &&& 3) : a &&& 2 = b &&& 2 := by
  have e : ∀ x : Nat, x &&& 2 = (x &&& 3) &&& 2 := fun x => by
    rw [Nat.land_assoc]; rfl
  rw [e a, e b, h]

/-! ## The tables of a loaded mesh -/

theorem load_vertex {σ : Type} (s : Stream) (dir : String) (texture_loader : TextureLoader σ)
    (engine : σ) (i p : Nat) (hi : i < readU8 s 2) (hp : p < verticesCount s i) :
    ∃ m, (ML_LoadMeshWithCustomTextureLoader s dir texture_loader engine).meshes[i]? = some m ∧
      m.data.nbPoint = verticesCount s i ∧
      m.data.pntbl[p]? = some (readPoint s XYZ (modelBase s i + 4 + 12 * p)).1 := by
  refine ⟨_, load_getElem? s dir texture_loader engine i hi, rfl, ?_⟩
  simp only [loadModel, readTmfModelHeader, sizeofTmfModelHeader]
  exact readVertices_getElem? s _ _ p hp

theorem load_face {σ : Type} (s : Stream) (dir : String) (texture_loader : TextureLoader σ)
    (engine : σ) (i f : Nat) (hi : i < readU8 s 2) (hf : f < faceCount s i) :
    ∃ m, (ML_LoadMeshWithCustomTextureLoader s dir texture_loader engine).meshes[i]? = some m ∧
      m.data.nbPoint = verticesCount s i ∧
      m.data.pltbl[f]? = some (readFace s 8 (textureBaseOf s dir texture_loader engine)
        (faceBase s i f)).1 ∧
      m.data.attbl[f]? = some (readFace s 8 (textureBaseOf s dir texture_loader engine)
        (faceBase s i f)).2.1 := by
  refine ⟨_, load_getElem? s dir texture_loader engine i hi, rfl, ?_, ?_⟩
  · simp only [loadModel, readTmfModelHeader, sizeofTmfModelHeader, readVertices_cursor, faceBase,
      verticesCount]
    exact readFaces_polygon s _ _ _ _ f hf
  · simp only [loadModel, readTmfModelHeader, sizeofTmfModelHeader, readVertices_cursor, faceBase,
      verticesCount]
    exact readFaces_attribute s _ _ _ _ f hf

theorem inMemory_take_completed (B : List Nat) (L : Nat) (beyond : Stream) (hL : L ≤ B.length) :
    inMemory (B.take L) (fun a => inMemory B beyond (a + L)) = inMemory B beyond := by
  funext a
  have hlen : (B.take L).length = L := by simp [List.length_take, hL]
  by_cases ha : a < L
  · have hb : a < B.length := by omega
    simp [inMemory, hlen, ha, hb, List.getD_eq_getElem?_getD, List.getElem?_take, ha]
  · have e : a - L + L = a := by omega
    simp [inMemory, hlen, ha, e]

/-! ## The loop of the default texture loader -/

theorem hasFileName_iff (texture : TmfTexture) :
    hasFileName texture = true ↔ texture.FileName.getD 0 0 ≠ 0 := by
  simp [hasFileName]

theorem basicTextureLoop_append {σ : Type}
    (jo : String → List Nat → Nat → σ → Int × σ) (dir : String) (l1 l2 : List TmfTexture)
    (startIndex : Int) (engine : σ) :
    basicTextureLoop jo dir (l1 ++ l2) startIndex engine =
      basicTextureLoop jo dir l2 (basicTextureLoop jo dir l1 startIndex engine).1
        (basicTextureLoop jo dir l1 startIndex engine).2 := by
  induction l1 generalizing startIndex engine with
  | nil => rfl
  | cons t rest ih =>
    by_cases h : t.FileName.getD 0 0 ≠ 0
    · rw [List.cons_append]
      simp only [basicTextureLoop, if_pos h]
      exact ih _ _
    · rw [List.cons_append]
      simp only [basicTextureLoop, if_neg h]
      exact ih _ _

theorem basicTextureLoop_no_name {σ : Type}
    (jo : String → List Nat → Nat → σ → Int × σ) (dir : String) (l : List TmfTexture)
    (startIndex : Int) (engine : σ) (h : ∀ t ∈ l, t.FileName.getD 0 0 = 0) :
    basicTextureLoop jo dir l startIndex engine = (startIndex, engine) := by
  induction l generalizing startIndex engine with
  | nil => rfl
  | cons t rest ih =>
    have h0 : ¬ t.FileName.getD 0 0 ≠ 0 := fun hn => hn (h t (List.mem_cons_self _ _))
    simp only [basicTextureLoop, if_neg h0]
    exact ih _ _ fun u hu => h u (List.mem_cons_of_mem _ hu)

theorem basicTextureLoop_keeps {σ : Type}
    (jo : String → List Nat → Nat → σ → Int × σ) (dir : String) (l : List TmfTexture)
    (startIndex : Int) (engine : σ) (h : 0 ≤ startIndex) :
    (basicTextureLoop jo dir l startIndex engine).1 = startIndex := by
  induction l generalizing engine with
  | nil => rfl
  | cons t rest ih =>
    have hlt : ¬ startIndex < 0 := by omega
    by_cases hn : t.FileName.getD 0 0 ≠ 0
    · simp only [basicTextureLoop, if_pos hn, if_neg hlt, ih]
    · simp only [basicTextureLoop, if_neg hn, ih]

theorem basicTextureLoop_recordCalls {σ : Type}
    (jo : String → List Nat → Nat → σ → Int × σ) (dir : String) (l : List TmfTexture)
    (startIndex : Int) (engine : σ) (log : List (String × List Nat × Nat)) :
    basicTextureLoop (recordCalls jo) dir l startIndex (engine, log) =
      ((basicTextureLoop jo dir l startIndex engine).1,
       ((basicTextureLoop jo dir l startIndex engine).2,
        log ++ (l.filter hasFileName).map fun t => (dir, t.FileName, JO_COLOR_Transparent))) := by
  induction l generalizing startIndex engine log with
  | nil => simp [basicTextureLoop]
  | cons t rest ih =>
    by_cases hn : t.FileName.getD 0 0 ≠ 0
    · have ht : hasFileName t = true := (hasFileName_iff t).mpr hn
      simp only [basicTextureLoop, if_pos hn, recordCalls, ih, List.filter_cons, ht, if_true,
        List.map_cons, List.append_assoc, List.singleton_append]
    · have ht : hasFileName t = false := by
        cases hb : hasFileName t with
        | false => rfl
        | true => exact absurd ((hasFileName_iff t).mp hb) hn
      simp only [basicTextureLoop, if_neg hn, ih, List.filter_cons, ht]
      rfl

theorem basicTextureLoop_visit {σ : Type}
    (jo : String → List Nat → Nat → σ → Int × σ) (dir : String) (table : List TmfTexture)
    (engine : σ) (k : Nat) (hk : k < table.length)
    (hname : (table.getD k textureRed).FileName.getD 0 0 ≠ 0) :
    basicTextureLoop jo dir table (-1) engine =
      basicTextureLoop jo dir (table.drop (k + 1))
        (if (basicTextureLoop jo dir (table.take k) (-1) engine).1 < 0
          then engineIndexOf jo dir table engine k
          else (basicTextureLoop jo dir (table.take k) (-1) engine).1)
        (jo dir (table.getD k textureRed).FileName JO_COLOR_Transparent
          (basicTextureLoop jo dir (table.take k) (-1) engine).2).2 := by
  have hsplit : table = table.take k ++ (table.getD k textureRed :: table.drop (k + 1)) := by
    rw [List.getD_eq_getElem _ _ hk, ← List.drop_eq_getElem_cons hk,
      List.take_append_drop]
  conv_lhs => rw [hsplit]
  rw [basicTextureLoop_append]
  simp only [basicTextureLoop, if_pos hname, engineIndexOf]

theorem keptIndex_cons_neg (a : Int) (answers : List Int) (startIndex : Int) (ha : a < 0) :
    keptIndex (a :: answers) startIndex = keptIndex answers a := by
  have hd : decide (0 ≤ a) = false := by
    rw [decide_eq_false_iff_not]; omega
  unfold keptIndex
  rw [List.find?_cons, hd, List.getLast?_cons]
  rfl

theorem keptIndex_cons_nonneg (a : Int) (answers : List Int) (startIndex : Int) (ha : 0 ≤ a) :
    keptIndex (a :: answers) startIndex = a := by
  have hd : decide (0 ≤ a) = true := by
    rw [decide_eq_true_iff]; exact ha
  unfold keptIndex
  rw [List.find?_cons, hd]

theorem basicTextureLoop_keptIndex {σ : Type}
    (jo : String → List Nat → Nat → σ → Int × σ) (dir : String) (l : List TmfTexture)
    (startIndex : Int) (engine : σ) (h : startIndex < 0) :
    (basicTextureLoop jo dir l startIndex engine).1 =
      keptIndex (loadAnswers jo dir l engine) startIndex := by
  induction l generalizing startIndex engine with
  | nil => rfl
  | cons t rest ih =>
    by_cases hn : t.FileName.getD 0 0 ≠ 0
    · simp only [basicTextureLoop, loadAnswers, if_pos hn, if_pos h]
      by_cases ha : 0 ≤ (jo dir t.FileName JO_COLOR_Transparent engine).1
      · rw [keptIndex_cons_nonneg _ _ _ ha]
        exact basicTextureLoop_keeps jo dir rest _ _ ha
      · have ha2 : (jo dir t.FileName JO_COLOR_Transparent engine).1 < 0 := by omega
        rw [keptIndex_cons_neg _ _ _ ha2]
        exact ih _ _ ha2
    · simp only [basicTextureLoop, loadAnswers, if_neg hn]
      exact ih _ _ h

theorem basicTextureLoop_recordAnswers {σ : Type}
    (jo : String → List Nat → Nat → σ → Int × σ) (dir : String) (l : List TmfTexture)
    (startIndex : Int) (engine : σ) (log : List Int) :
    basicTextureLoop (recordAnswers jo) dir l startIndex (engine, log) =
      ((basicTextureLoop jo dir l startIndex engine).1,
       ((basicTextureLoop jo dir l startIndex engine).2, log ++ loadAnswers jo dir l engine)) := by
  induction l generalizing startIndex engine log with
  | nil => simp [basicTextureLoop, loadAnswers]
  | cons t rest ih =>
    by_cases hn : t.FileName.getD 0 0 ≠ 0
    · simp only [basicTextureLoop, loadAnswers, if_pos hn, recordAnswers, ih, List.append_assoc,
        List.singleton_append]
    · simp only [basicTextureLoop, loadAnswers, if_neg hn, ih]

theorem basicTextureLoop_first_ok {σ : Type}
    (jo : String → List Nat → Nat → σ → Int × σ) (dir : String) (l : List TmfTexture)
    (startIndex : Int) (engine : σ) (t : TmfTexture) (h : startIndex < 0)
    (hfind : l.find? hasFileName = some t)
    (hok : 0 ≤ (jo dir t.FileName JO_COLOR_Transparent engine).1) :
    (basicTextureLoop jo dir l startIndex engine).1 =
      (jo dir t.FileName JO_COLOR_Transparent engine).1 := by
  induction l generalizing engine with
  | nil => simp at hfind
  | cons u rest ih =>
    by_cases hn : u.FileName.getD 0 0 ≠ 0
    · have hu : hasFileName u = true := (hasFileName_iff u).mpr hn
      rw [List.find?_cons, hu] at hfind
      have e : u = t := Option.some.inj hfind
      subst e
      simp only [basicTextureLoop, if_pos hn, if_pos h]
      exact basicTextureLoop_keeps jo dir rest _ _ hok
    · have hu : hasFileName u = false := by
        cases hb : hasFileName u with
        | false => rfl
        | true => exact absurd ((hasFileName_iff u).mp hb) hn
      rw [List.find?_cons, hu] at hfind
      simp only [basicTextureLoop, if_neg hn]
      exact ih engine hfind hok

/-! ## Flag bits and attribute agreement -/

theorem land_one_ne_zero_iff (x : Nat) : x &&& 1 ≠ 0 ↔ x.testBit 0 = true := by
  rw [Nat.and_one_is_mod, Nat.testBit_zero]
  have h := Nat.mod_two_eq_zero_or_one x
  rcases h with h | h <;> simp [h]

theorem land_two_ne_zero_iff (x : Nat) : x &&& 2 ≠ 0 ↔ x.testBit 1 = true := by
  have h3 : x &&& 3 = x % 4 := Nat.and_pow_two_sub_one_eq_mod x 2
  have e : x &&& 2 = (x % 4) &&& 2 := by
    rw [← h3, Nat.land_assoc]; rfl
  have ht : x.testBit 1 = (x % 4).testBit 1 := by
    rw [show (4 : Nat) = 2 ^ 2 from rfl, Nat.testBit_mod_two_pow]; simp
  rw [e, ht]
  have hlt : x % 4 < 4 := Nat.mod_lt _ (by decide)
  generalize x % 4 = y at hlt
  interval_cases y <;> decide

theorem faceAttribute_of_agree (f1 f2 : TmfFace) (t1 t2 : TmfTexture) (textureOffset : Int)
    (hflags : f1.Flags &&& 3 = f2.Flags &&& 3) (hidx : f1.Texture = f2.Texture)
    (hname : t1.FileName.getD 0 0 = 0 ↔ t2.FileName.getD 0 0 = 0)
    (hcolor : t1.color = t2.color) :
    faceAttribute f1 t1 textureOffset = faceAttribute f2 t2 textureOffset := by
  have hd : f1.Flags &&& Tmf_Face_Double = f2.Flags &&& Tmf_Face_Double :=
    land_one_of_land_three hflags
  have hm : f1.Flags &&& Tmf_Face_Meshed = f2.Flags &&& Tmf_Face_Meshed :=
    land_two_of_land_three hflags
  by_cases h : t1.FileName.getD 0 0 = 0
  · simp only [faceAttribute, if_pos h, if_pos (hname.mp h), hd, hm, hcolor]
  · simp only [faceAttribute, if_neg h, if_neg (fun h2 => h (hname.mpr h2)), hd, hm, hidx]

/-! ## Streams that agree below an address -/

theorem readU8_below {s t : Stream} {N : Nat} (h : ∀ a, a < N → s a = t a) (a : Nat)
    (ha : a < N) : readU8 s a = readU8 t a := by
  simp only [readU8, h a ha]

theorem readU16_below {s t : Stream} {N : Nat} (h : ∀ a, a < N → s a = t a) (a : Nat)
    (ha : a + 2 ≤ N) : readU16 s a = readU16 t a := by
  simp only [readU16, readU8_below h a (by omega), readU8_below h (a + 1) (by omega)]

theorem readFIXED_below {s t : Stream} {N : Nat} (h : ∀ a, a < N → s a = t a) (a : Nat)
    (ha : a + 4 ≤ N) : readFIXED s a = readFIXED t a := by
  simp only [readFIXED, readU32, readU8_below h a (by omega), readU8_below h (a + 1) (by omega),
    readU8_below h (a + 2) (by omega), readU8_below h (a + 3) (by omega)]

theorem readTmfTexture_below {s t : Stream} {N : Nat} (h : ∀ a, a < N → s a = t a) (a : Nat)
    (ha : a + 16 ≤ N) : readTmfTexture s a = readTmfTexture t a := by
  have h1 : (List.range 13).map (fun k => readU8 s (a + k)) =
      (List.range 13).map (fun k => readU8 t (a + k)) :=
    List.map_congr_left fun k hk => readU8_below h _ (by have := List.mem_range.mp hk; omega)
  have h2 : (List.range 3).map (fun k => readU8 s (a + 13 + k)) =
      (List.range 3).map (fun k => readU8 t (a + 13 + k)) :=
    List.map_congr_left fun k hk => readU8_below h _ (by have := List.mem_range.mp hk; omega)
  simp only [readTmfTexture, h1, h2]

theorem readTmfFace_below {s t : Stream} {N : Nat} (h : ∀ a, a < N → s a = t a) (a : Nat)
    (ha : a + 24 ≤ N) : readTmfFace s a = readTmfFace t a := by
  have h1 : (List.range 3).map (fun k => readFIXED s (a + 4 * k)) =
      (List.range 3).map (fun k => readFIXED t (a + 4 * k)) :=
    List.map_congr_left fun k hk => readFIXED_below h _ (by have := List.mem_range.mp hk; omega)
  have h2 : (List.range 4).map (fun k => readU16 s (a + 12 + 2 * k)) =
      (List.range 4).map (fun k => readU16 t (a + 12 + 2 * k)) :=
    List.map_congr_left fun k hk => readU16_below h _ (by have := List.mem_range.mp hk; omega)
  have h3 : (List.range 2).map (fun k => readU8 s (a + 22 + k)) =
      (List.range 2).map (fun k => readU8 t (a + 22 + k)) :=
    List.map_congr_left fun k hk => readU8_below h _ (by have := List.mem_range.mp hk; omega)
  simp only [readTmfFace, h1, h2, h3, readU8_below h (a + 20) (by omega),
    readU8_below h (a + 21) (by omega)]

theorem textureTable_below {s t : Stream} {N : Nat} (h : ∀ a, a < N → s a = t a)
    (textures count : Nat) (ht : textures + 16 * count ≤ N) :
    textureTable s textures count = textureTable t textures count := by
  simp only [textureTable, sizeofTmfTexture]
  exact List.map_congr_left fun k hk =>
    readTmfTexture_below h _ (by have := List.mem_range.mp hk; omega)

theorem readPoint_below {s t : Stream} {N : Nat} (h : ∀ a, a < N → s a = t a)
    (n stream : Nat) (hs : stream + 4 * n ≤ N) : readPoint s n stream = readPoint t n stream := by
  induction n generalizing stream with
  | zero => rfl
  | succ n ih =>
    simp only [readPoint, ih (stream + 4) (by omega), readFIXED_below h stream (by omega)]

theorem readVertices_below {s t : Stream} {N : Nat} (h : ∀ a, a < N → s a = t a)
    (n stream : Nat) (hs : stream + 12 * n ≤ N) :
    readVertices s n stream = readVertices t n stream := by
  induction n generalizing stream with
  | zero => rfl
  | succ n ih =>
    have hp := readPoint_below h XYZ stream (by simp only [XYZ]; omega)
    have hc : (readPoint t XYZ stream).2 + 12 * n ≤ N := by
      rw [readPoint_cursor]; simp only [XYZ]; omega
    simp only [readVertices, hp, ih _ hc]

theorem readFace_below {s t : Stream} {N : Nat} (h : ∀ a, a < N → s a = t a)
    (textures : Nat) (textureOffset : Int) (stream : Nat) (hs : stream + 24 ≤ N)
    (ht : textures + 16 * readU8 s (stream + 21) + 16 ≤ N) :
    readFace s textures textureOffset stream = readFace t textures textureOffset stream := by
  have hf := readTmfFace_below h stream hs
  have hx : (readTmfFace t stream).Texture = readU8 s (stream + 21) := by
    rw [← hf]; rfl
  have hd := readTmfTexture_below h (textures + sizeofTmfTexture * (readTmfFace t stream).Texture)
    (by rw [hx]; simp only [sizeofTmfTexture]; omega)
  simp only [readFace, hf, hd]

theorem readFaces_below {s t : Stream} {N : Nat} (h : ∀ a, a < N → s a = t a)
    (textures : Nat) (textureOffset : Int) (n stream : Nat) (hs : stream + 24 * n ≤ N)
    (ht : ∀ f, f < n → textures + 16 * readU8 s (stream + 24 * f + 21) + 16 ≤ N) :
    readFaces s textures textureOffset n stream = readFaces t textures textureOffset n stream := by
  induction n generalizing stream with
  | zero => rfl
  | succ n ih =>
    have hf := readFace_below h textures textureOffset stream (by omega)
      (by have := ht 0 (by omega); simpa using this)
    have hc : (readFace t textures textureOffset stream).2.2 + 24 * n ≤ N := by
      rw [readFace_cursor]; omega
    have ht2 : ∀ f, f < n → textures + 16 * readU8 s
        ((readFace t textures textureOffset stream).2.2 + 24 * f + 21) + 16 ≤ N := by
      intro f hfn
      rw [readFace_cursor]
      have := ht (f + 1) (by omega)
      have e : stream + 24 * (f + 1) + 21 = stream + 24 + 24 * f + 21 := by omega
      rw [e] at this
      exact this
    simp only [readFaces, hf, ih _ hc ht2]

theorem loadModel_below {s t : Stream} {N : Nat} (h : ∀ a, a < N → s a = t a)
    (textures : Nat) (textureOffset : Int) (stream : Nat)
    (hs : stream + modelSize s stream ≤ N)
    (ht : ∀ f, f < readU16 s (stream + 2) →
      textures + 16 * readU8 s (stream + 4 + 12 * readU16 s stream + 24 * f + 21) + 16 ≤ N) :
    loadModel s textures textureOffset stream = loadModel t textures textureOffset stream := by
  simp only [modelSize] at hs
  have h1 : readTmfModelHeader s stream = readTmfModelHeader t stream := by
    simp only [readTmfModelHeader, readU16_below h stream (by omega),
      readU16_below h (stream + 2) (by omega)]
  have hV : (readTmfModelHeader t stream).VerticesCount = readU16 s stream := by
    rw [← h1]; rfl
  have hF : (readTmfModelHeader t stream).FaceCount = readU16 s (stream + 2) := by
    rw [← h1]; rfl
  have h2 := readVertices_below h (readTmfModelHeader t stream).VerticesCount
    (stream + sizeofTmfModelHeader) (by rw [hV]; simp only [sizeofTmfModelHeader]; omega)
  have hc : (readVertices t (readTmfModelHeader t stream).VerticesCount
      (stream + sizeofTmfModelHeader)).2 = stream + 4 + 12 * readU16 s stream := by
    rw [readVertices_cursor, hV]; rfl
  have h3 := readFaces_below h textures textureOffset (readTmfModelHeader t stream).FaceCount
    (readVertices t (readTmfModelHeader t stream).VerticesCount
      (stream + sizeofTmfModelHeader)).2
    (by rw [hc, hF]; omega)
    (by rw [hc, hF]; exact ht)
  simp only [loadModel, h1, h2, h3]

theorem modelBase_mono (s : Stream) (j n : Nat) : modelBase s j ≤ modelBase s (j + n) := by
  induction n with
  | zero => exact Nat.le_refl _
  | succ n ih =>
    have e : j + (n + 1) = (j + n) + 1 := by omega
    rw [e]
    simp only [modelBase]
    omega

theorem loadModels_below {s t : Stream} {N : Nat} (h : ∀ a, a < N → s a = t a)
    (textures : Nat) (textureOffset : Int) (n j : Nat)
    (hs : modelBase s (j + n) ≤ N)
    (ht : ∀ i f, i < n → f < faceCount s (j + i) →
      textures + 16 * readU8 s (faceBase s (j + i) f + 21) + 16 ≤ N) :
    loadModels s textures textureOffset n (modelBase s j) =
      loadModels t textures textureOffset n (modelBase s j) := by
  induction n generalizing j with
  | zero => rfl
  | succ n ih =>
    have hle : modelBase s (j + 1) ≤ N := by
      have := modelBase_mono s (j + 1) n
      have e : j + 1 + n = j + (n + 1) := by omega
      rw [e] at this
      omega
    have hm := loadModel_below h textures textureOffset (modelBase s j)
      (by simpa only [modelBase] using hle)
      (by
        intro f hf
        have := ht 0 f (by omega) (by simpa only [faceCount, Nat.add_zero] using hf)
        simpa only [faceBase, verticesCount, Nat.add_zero] using this)
    have hc : (loadModel t textures textureOffset (modelBase s j)).2 = modelBase s (j + 1) := by
      rw [← hm, loadModel_cursor]; rfl
    have hrest := ih (j + 1)
      (by have e : j + 1 + n = j + (n + 1) := by omega
          rw [e]; exact hs)
      (by
        intro i f hi hf
        have e : j + 1 + i = j + (i + 1) := by omega
        rw [e] at hf ⊢
        exact ht (i + 1) f (by omega) hf)
    simp only [loadModels, hm, hc, hrest]

theorem load_below {σ : Type} {s t : Stream} {N : Nat} (h : ∀ a, a < N → s a = t a)
    (dir : String) (texture_loader : TextureLoader σ) (engine : σ)
    (hs : requiredLength s ≤ N)
    (ht : ∀ i f, i < readU8 s 2 → f < faceCount s i →
      8 + 16 * readU8 s (faceBase s i f + 21) + 16 ≤ N) :
    ML_LoadMeshWithCustomTextureLoader s dir texture_loader engine =
      ML_LoadMeshWithCustomTextureLoader t dir texture_loader engine := by
  have h0 : modelBase s 0 ≤ N := by
    have := modelBase_mono s 0 (readU8 s 2)
    simp only [Nat.zero_add] at this
    simp only [requiredLength] at hs
    omega
  have h8 : 8 + 16 * readU8 s 1 ≤ N := by simpa only [modelBase] using h0
  have hT : readU8 t 1 = readU8 s 1 := (readU8_below h 1 (by omega)).symm
  have hM : readU8 t 2 = readU8 s 2 := (readU8_below h 2 (by omega)).symm
  have hTab := textureTable_below h 8 (readU8 s 1) h8
  have hL := loadModels_below h 8
    (texture_loader (textureTable t 8 (readU8 s 1)) dir (readU8 s 1) engine).1 (readU8 s 2) 0
    (by simpa only [requiredLength, Nat.zero_add] using hs)
    (by
      intro i f hi hf
      simp only [Nat.zero_add] at hf ⊢
      exact ht i f hi hf)
  simp only [modelBase] at hL
  simp only [ML_LoadMeshWithCustomTextureLoader, readTmfHeader, sizeofTmfHeader, sizeofTmfTexture,
    Nat.zero_add, hT, hM, hTab, hL]

theorem inMemory_append_below (B X : List Nat) (beyond beyond2 : Stream) (a : Nat)
    (ha : a < B.length) : inMemory B beyond a = inMemory (B ++ X) beyond2 a := by
  have h2 : a < (B ++ X).length := by rw [List.length_append]; omega
  simp only [inMemory, if_pos ha, if_pos h2]
  rw [List.getD_append _ _ _ _ ha]

/-! ## Properties of the loader -/

/-- C1: count conservation. The reported count and the length of the returned mesh array
equal the header's ModelCount byte; mesh `i` has `nbPoint` and a vertex table of
`ModelHeader[i].VerticesCount` entries, and `nbPolygon`, a polygon table and an attribute
table of `ModelHeader[i].FaceCount` entries; the 8-byte all-zero buffer loads with count 0
and an empty mesh array. -/
theorem C1_count_conservation {σ : Type} (s : Stream) (dir : String)
    (texture_loader : TextureLoader σ) (engine : σ) :
    (ML_LoadMeshWithCustomTextureLoader s dir texture_loader engine).loaded = readU8 s 2 ∧
    (ML_LoadMeshWithCustomTextureLoader s dir texture_loader engine).meshes.length
      = readU8 s 2 ∧
    (∀ i, i < readU8 s 2 →
      ∃ m, (ML_LoadMeshWithCustomTextureLoader s dir texture_loader engine).meshes[i]? = some m ∧
        m.data.nbPoint = verticesCount s i ∧ m.data.pntbl.length = verticesCount s i ∧
        m.data.nbPolygon = faceCount s i ∧ m.data.pltbl.length = faceCount s i ∧
        m.data.attbl.length = faceCount s i) ∧
    (∀ beyond : Stream,
      (ML_LoadMeshWithCustomTextureLoader (inMemory [0, 0, 0, 0, 0, 0, 0, 0] beyond) dir
        texture_loader engine).loaded = 0 ∧
      (ML_LoadMeshWithCustomTextureLoader (inMemory [0, 0, 0, 0, 0, 0, 0, 0] beyond) dir
        texture_loader engine).meshes = []) := by
  refine ⟨load_loaded_eq s dir texture_loader engine, ?_, ?_, ?_⟩
  · rw [load_meshes_eq, loadModels_length]
  · intro i hi
    refine ⟨_, load_getElem? s dir texture_loader engine i hi, ?_⟩
    simp [loadModel, readTmfModelHeader, verticesCount, faceCount, readVertices_length,
      readFaces_length_polygons, readFaces_length_attributes]
  · intro beyond
    have h2 : readU8 (inMemory [0, 0, 0, 0, 0, 0, 0, 0] beyond) 2 = 0 := by
      simp [readU8, inMemory]
    rw [load_loaded_eq, load_meshes_eq, h2]
    exact ⟨rfl, rfl⟩

/-- C1, on the untextured quad: one mesh, with four vertices and one face. -/
theorem C1_count_conservation_witness :
    0 < readU8 (inMemory untexturedQuad zeroMemory) 2 ∧
    ∃ m, (ML_LoadMeshWithCustomTextureLoader (inMemory untexturedQuad zeroMemory) ""
        (constLoader 0) ()).meshes[0]? = some m ∧
      m.data.nbPoint = 4 ∧ m.data.pntbl.length = 4 ∧
      m.data.nbPolygon = 1 ∧ m.data.pltbl.length = 1 ∧ m.data.attbl.length = 1 :=
  ⟨by decide,
   (C1_count_conservation (inMemory untexturedQuad zeroMemory) "" (constLoader 0) ()).2.2.1 0
     (by decide)⟩

/-- C2, refuted as stated: the face of the textured quad (descriptor `"TEX.TGA"`, texture
index 0) with texture base 0 gets `textureId = No_Texture` and `color = No_Palet`, so
neither of the two inequalities holds. -/
theorem C2_exclusivity_counterexample :
    readU8 (inMemory texturedQuad zeroMemory) (faceBase (inMemory texturedQuad zeroMemory) 0 0
      + 21) < readU8 (inMemory texturedQuad zeroMemory) 1 ∧
    (ML_LoadMeshWithCustomTextureLoader (inMemory texturedQuad zeroMemory) ""
      (constLoader 0) ()).meshes.map
        (fun m => m.data.attbl.map
          (fun a => (decide (a.textureId ≠ No_Texture), decide (a.color ≠ No_Palet))))
      = [[(false, false)]] := by
  decide

/-- C2, amended: exactly one of `textureId ≠ No_Texture` and `color ≠ No_Palet` holds for a
face if and only if its descriptor is colour-only or `(textureIdx + textureBase) mod 2^16`
is not 0; for a textured face whose `(textureIdx + textureBase) mod 2^16` is 0, neither
holds. -/
theorem C2_exclusivity_amended (faceData : TmfFace) (texture : TmfTexture) (textureOffset : Int) :
    (Xor' ((faceAttribute faceData texture textureOffset).textureId ≠ No_Texture)
        ((faceAttribute faceData texture textureOffset).color ≠ No_Palet)
      ↔ (texture.FileName.getD 0 0 = 0 ∨
          toUShort ((faceData.Texture : Int) + textureOffset) ≠ 0)) ∧
    (texture.FileName.getD 0 0 ≠ 0 → toUShort ((faceData.Texture : Int) + textureOffset) = 0 →
      (faceAttribute faceData texture textureOffset).textureId = No_Texture ∧
      (faceAttribute faceData texture textureOffset).color = No_Palet) := by
  by_cases h : texture.FileName.getD 0 0 = 0
  · have hc := JO_COLOR_RGB_mod_ne_zero (texture.color.getD 0 0) (texture.color.getD 1 0)
      (texture.color.getD 2 0)
    simp only [faceAttribute, if_pos h, No_Texture, No_Palet, toUShort_natCast, Xor']
    exact ⟨⟨fun _ => Or.inl h, fun _ => Or.inr ⟨hc, fun h2 => h2 rfl⟩⟩, fun h1 => absurd h h1⟩
  · simp only [faceAttribute, if_neg h, No_Texture, No_Palet, Xor']
    refine ⟨⟨?_, ?_⟩, fun _ h2 => ⟨h2, trivial⟩⟩
    · rintro (⟨h1, _⟩ | ⟨h1, _⟩)
      · exact Or.inr h1
      · exact absurd rfl h1
    · rintro (h1 | h1)
      · exact absurd h1 h
      · exact Or.inl ⟨h1, fun h2 => h2 rfl⟩

/-- C2, amended, on a textured face with texture index 0 and texture base 0. -/
theorem C2_exclusivity_amended_witness :
    (faceAttribute (readTmfFace (inMemory texturedQuad zeroMemory) 28)
        (readTmfTexture (inMemory texturedQuad zeroMemory) 8) 0).textureId = No_Texture ∧
    (faceAttribute (readTmfFace (inMemory texturedQuad zeroMemory) 28)
        (readTmfTexture (inMemory texturedQuad zeroMemory) 8) 0).color = No_Palet :=
  (C2_exclusivity_amended (readTmfFace (inMemory texturedQuad zeroMemory) 28)
    (readTmfTexture (inMemory texturedQuad zeroMemory) 8) 0).2 (by decide) (by decide)

/-- C3, refuted as stated: the buffer `01 00 01 00 00 00 00 00 00 00 00 00`, whose type
byte is 1, is not rejected; the loader returns one (empty) mesh and reports count 1. -/
theorem C3_type_not_checked_counterexample :
    readU8 (inMemory typeOneBuffer zeroMemory) 0 ≠ Tmf_Type_Static ∧
    (ML_LoadMeshWithCustomTextureLoader (inMemory typeOneBuffer zeroMemory) ""
      (constLoader 0) ()).meshes = [⟨⟨[], 0, [], 0, []⟩⟩] ∧
    (ML_LoadMeshWithCustomTextureLoader (inMemory typeOneBuffer zeroMemory) ""
      (constLoader 0) ()).loaded = 1 := by
  decide

/-- C3, amended: the type byte is not examined. Two streams that differ at most in their
first byte load to the same count, the same meshes and the same engine state, so a
buffer of any type loads exactly as the same buffer with type 0 (STATIC) does. -/
theorem C3_type_byte_ignored {σ : Type} (s t : Stream) (dir : String)
    (texture_loader : TextureLoader σ) (engine : σ) (h : ∀ a, a ≠ 0 → s a = t a) :
    (ML_LoadMeshWithCustomTextureLoader s dir texture_loader engine).meshes =
      (ML_LoadMeshWithCustomTextureLoader t dir texture_loader engine).meshes ∧
    (ML_LoadMeshWithCustomTextureLoader s dir texture_loader engine).loaded =
      (ML_LoadMeshWithCustomTextureLoader t dir texture_loader engine).loaded ∧
    (ML_LoadMeshWithCustomTextureLoader s dir texture_loader engine).engine =
      (ML_LoadMeshWithCustomTextureLoader t dir texture_loader engine).engine := by
  have h1 : ∀ a, 1 ≤ a → s a = t a := fun a ha => h a (by omega)
  have hT : readU8 s 1 = readU8 t 1 := readU8_congr h1 1 (by omega)
  have hM : readU8 s 2 = readU8 t 2 := readU8_congr h1 2 (by omega)
  have hTab := textureTable_congr h1 8 (readU8 t 1) (by omega)
  simp only [ML_LoadMeshWithCustomTextureLoader, readTmfHeader, sizeofTmfHeader, hT, hM, hTab,
    Nat.zero_add]
  exact ⟨loadModels_congr h1 _ _ _ _ (by omega) (by omega), trivial, trivial⟩

/-- C3, amended, on the type-1 buffer and its type-0 twin. -/
theorem C3_type_byte_ignored_witness :
    (ML_LoadMeshWithCustomTextureLoader (inMemory typeOneBuffer zeroMemory) ""
        (constLoader 0) ()).meshes =
      (ML_LoadMeshWithCustomTextureLoader
        (inMemory (headerBytes 0 0 1 ++ [0, 0, 0, 0]) zeroMemory) "" (constLoader 0) ()).meshes :=
  (C3_type_byte_ignored (inMemory typeOneBuffer zeroMemory)
    (inMemory (headerBytes 0 0 1 ++ [0, 0, 0, 0]) zeroMemory) "" (constLoader 0) ()
    (by
      intro a ha
      cases a with
      | zero => exact absurd rfl ha
      | succ a => rfl)).1

/-- C4, refuted as stated: the grammar requires 76 bytes of the two-face buffer; its first
60 bytes end inside the second face, and loading them (zero bytes behind) does not fail:
one mesh with two polygons and two attributes is returned, with count 1. -/
theorem C4_truncation_counterexample :
    60 < requiredLength (inMemory twoFaceBuffer zeroMemory) ∧
    (ML_LoadMeshWithCustomTextureLoader (inMemory (twoFaceBuffer.take 60) zeroMemory) ""
      (constLoader 0) ()).loaded = 1 ∧
    (ML_LoadMeshWithCustomTextureLoader (inMemory (twoFaceBuffer.take 60) zeroMemory) ""
      (constLoader 0) ()).meshes.map
        (fun m => (m.data.nbPolygon, m.data.pltbl.length, m.data.attbl.length))
      = [(2, 2, 2)] := by
  decide

/-- C4, amended: truncation is not detected. Loading a prefix `B[0:L]` (with `3 ≤ L`) does
not fail: whatever bytes lie behind the prefix in memory, the reported count and the length
of the mesh array are the ModelCount byte of `B`; the missing bytes are read from the memory
behind the prefix, and when that memory holds the rest of `B` the result is that of
loading `B`. -/
theorem C4_truncation_not_detected {σ : Type} (B : List Nat) (L : Nat) (beyond : Stream)
    (dir : String) (texture_loader : TextureLoader σ) (engine : σ)
    (hL : 3 ≤ L) (hB : L ≤ B.length) :
    (ML_LoadMeshWithCustomTextureLoader (inMemory (B.take L) beyond) dir texture_loader
      engine).loaded = B.getD 2 0 % 256 ∧
    (ML_LoadMeshWithCustomTextureLoader (inMemory (B.take L) beyond) dir texture_loader
      engine).meshes.length = B.getD 2 0 % 256 ∧
    (ML_LoadMeshWithCustomTextureLoader
        (inMemory (B.take L) (fun a => inMemory B beyond (a + L))) dir texture_loader
          engine).meshes =
      (ML_LoadMeshWithCustomTextureLoader (inMemory B beyond) dir texture_loader engine).meshes := by
  have hlen : (B.take L).length = L := by simp [List.length_take, hB]
  have h2 : readU8 (inMemory (B.take L) beyond) 2 = B.getD 2 0 % 256 := by
    have h2L : 2 < L := by omega
    simp [readU8, inMemory, hlen, h2L, List.getD_eq_getElem?_getD, List.getElem?_take]
    rw [List.getElem?_eq_getElem (by omega : 2 < B.length)]
    rfl
  refine ⟨?_, ?_, ?_⟩
  · rw [load_loaded_eq, h2]
  · rw [load_meshes_eq, loadModels_length, h2]
  · rw [inMemory_take_completed B L beyond hB]

/-- C4, amended, on the first 60 bytes of the two-face buffer. -/
theorem C4_truncation_not_detected_witness :
    (ML_LoadMeshWithCustomTextureLoader (inMemory (twoFaceBuffer.take 60) zeroMemory) ""
      (constLoader 0) ()).meshes.length = 1 :=
  (C4_truncation_not_detected twoFaceBuffer 60 zeroMemory "" (constLoader 0) ()
    (by decide) (by decide)).2.1

/-- C5, refuted as stated: the buffer has no texture descriptor (textureCount 0) and a face
with texture index 0; loading does not fail, and the face gets the colour `0xA21F` packed
from bytes 21..23 of the buffer, which belong to the face's own normal. -/
theorem C5_texture_index_counterexample :
    readU8 (inMemory strayTextureBuffer zeroMemory) 1 ≤
      readU8 (inMemory strayTextureBuffer zeroMemory) (faceBase (inMemory strayTextureBuffer
        zeroMemory) 0 0 + 21) ∧
    (ML_LoadMeshWithCustomTextureLoader (inMemory strayTextureBuffer zeroMemory) ""
      (constLoader 0) ()).meshes
      = [⟨⟨[], 0, [⟨[1, 2, 16744512], [0, 0, 0, 0]⟩], 1,
          [⟨0, 3, 0, JO_COLOR_RGB 255 128 64, 40, 40, sprPolygon, 0⟩]⟩⟩] := by
  decide

/-- C5, amended: the texture index is not validated. For every face, whatever its texture
index byte `t` (also `t ≥ textureCount`), the attribute stored for it is the one the loader
computes from the 16 bytes at buffer offset `8 + 16 * t`, read as a descriptor. -/
theorem C5_texture_index_unchecked {σ : Type} (s : Stream) (dir : String)
    (texture_loader : TextureLoader σ) (engine : σ) (i f : Nat)
    (hi : i < readU8 s 2) (hf : f < faceCount s i) :
    ∃ m, (ML_LoadMeshWithCustomTextureLoader s dir texture_loader engine).meshes[i]? = some m ∧
      m.data.attbl[f]? = some
        (faceAttribute (readTmfFace s (faceBase s i f))
          (readTmfTexture s (8 + 16 * readU8 s (faceBase s i f + 21)))
          (textureBaseOf s dir texture_loader engine)) := by
  obtain ⟨m, hm, _, _, ha⟩ := load_face s dir texture_loader engine i f hi hf
  exact ⟨m, hm, ha⟩

/-- C5, amended, on the buffer without descriptors. -/
theorem C5_texture_index_unchecked_witness :
    ∃ m, (ML_LoadMeshWithCustomTextureLoader (inMemory strayTextureBuffer zeroMemory) ""
        (constLoader 0) ()).meshes[0]? = some m ∧
      m.data.attbl[0]? = some
        (faceAttribute (readTmfFace (inMemory strayTextureBuffer zeroMemory)
            (faceBase (inMemory strayTextureBuffer zeroMemory) 0 0))
          (readTmfTexture (inMemory strayTextureBuffer zeroMemory)
            (8 + 16 * readU8 (inMemory strayTextureBuffer zeroMemory)
              (faceBase (inMemory strayTextureBuffer zeroMemory) 0 0 + 21)))
          (textureBaseOf (inMemory strayTextureBuffer zeroMemory) "" (constLoader 0) ())) :=
  C5_texture_index_unchecked (inMemory strayTextureBuffer zeroMemory) "" (constLoader 0) () 0 0
    (by decide) (by decide)

/-- C6, refuted as stated: with the loader answering -1, the face of the textured quad
(descriptor `"TEX.TGA"`, texture index 0) is stored with `textureId` 65535, which is not
`textureIdx + textureBase = -1`. -/
theorem C6_textured_counterexample :
    (readTmfTexture (inMemory texturedQuad zeroMemory) 8).FileName.getD 0 0 ≠ 0 ∧
    readU8 (inMemory texturedQuad zeroMemory) (faceBase (inMemory texturedQuad zeroMemory) 0 0
      + 21) = 0 ∧
    (ML_LoadMeshWithCustomTextureLoader (inMemory texturedQuad zeroMemory) ""
      (constLoader (-1)) ()).meshes.map (fun m => m.data.attbl.map (fun a => a.textureId))
      = [[65535]] ∧
    ((65535 : Nat) : Int) ≠ ((0 : Nat) : Int) + (-1) := by
  decide

/-- C6, amended: for a face whose descriptor has `fileName[0] ≠ 0`, the attribute has
`textureId = (textureIdx + textureBase) mod 2^16` (which is `textureIdx + textureBase`
whenever that sum lies in `0 .. 65535`), `color = No_Palet` and sprite kind `sprNoflip`. -/
theorem C6_textured_attribute (faceData : TmfFace) (texture : TmfTexture) (textureOffset : Int)
    (h : texture.FileName.getD 0 0 ≠ 0) :
    (faceAttribute faceData texture textureOffset).textureId =
      (((faceData.Texture : Int) + textureOffset) % 65536).toNat ∧
    (0 ≤ (faceData.Texture : Int) + textureOffset →
      (faceData.Texture : Int) + textureOffset < 65536 →
      ((faceAttribute faceData texture textureOffset).textureId : Int) =
        (faceData.Texture : Int) + textureOffset) ∧
    (faceAttribute faceData texture textureOffset).color = No_Palet ∧
    (faceAttribute faceData texture textureOffset).spriteKind = sprNoflip := by
  simp only [faceAttribute, if_neg h, toUShort]
  refine ⟨?_, ?_, ?_, ?_⟩
  · trivial
  · intro h0 h1
    omega
  · trivial
  · trivial

/-- C6, amended, on the textured quad with the loader answering 7: `textureId` is 7. -/
theorem C6_textured_attribute_witness :
    ((faceAttribute (readTmfFace (inMemory texturedQuad zeroMemory) 28)
        (readTmfTexture (inMemory texturedQuad zeroMemory) 8) 7).textureId : Int) =
      ((readTmfFace (inMemory texturedQuad zeroMemory) 28).Texture : Int) + 7 :=
  (C6_textured_attribute (readTmfFace (inMemory texturedQuad zeroMemory) 28)
    (readTmfTexture (inMemory texturedQuad zeroMemory) 8) 7 (by decide)).2.1
    (by decide) (by decide)

/-- C7: for a face whose descriptor (the 16 bytes at `a`) has `fileName[0] = 0`, the
attribute has `textureId = No_Texture`, `color = JO_COLOR_RGB` of the descriptor's three
colour bytes and sprite kind `sprPolygon`, and is the same for every texture base. -/
theorem C7_colour_only_attribute (s : Stream) (a : Nat) (faceData : TmfFace)
    (textureOffset textureOffset2 : Int) (h : (readTmfTexture s a).FileName.getD 0 0 = 0) :
    (faceAttribute faceData (readTmfTexture s a) textureOffset).textureId = No_Texture ∧
    (faceAttribute faceData (readTmfTexture s a) textureOffset).color =
      JO_COLOR_RGB (readU8 s (a + 13)) (readU8 s (a + 14)) (readU8 s (a + 15)) ∧
    (faceAttribute faceData (readTmfTexture s a) textureOffset).spriteKind = sprPolygon ∧
    faceAttribute faceData (readTmfTexture s a) textureOffset2 =
      faceAttribute faceData (readTmfTexture s a) textureOffset := by
  have hc : (readTmfTexture s a).color =
      [readU8 s (a + 13), readU8 s (a + 14), readU8 s (a + 15)] := rfl
  have hlt := JO_COLOR_RGB_lt _ _ _ (readU8_lt s (a + 13)) (readU8_lt s (a + 14))
    (readU8_lt s (a + 15))
  simp only [faceAttribute, if_pos h, toUShort_natCast, hc, List.getD_cons_zero,
    List.getD_cons_succ, Nat.mod_eq_of_lt hlt]
  exact ⟨trivial, trivial, trivial, trivial⟩

/-- C7, on the untextured quad (descriptor colour `FF 00 00`): colour `0x801F`. -/
theorem C7_colour_only_attribute_witness :
    (faceAttribute (readTmfFace (inMemory untexturedQuad zeroMemory) 76)
      (readTmfTexture (inMemory untexturedQuad zeroMemory) 8) 7).color = 0x801F :=
  (C7_colour_only_attribute (inMemory untexturedQuad zeroMemory) 8
    (readTmfFace (inMemory untexturedQuad zeroMemory) 76) 7 0 (by decide)).2.1

/-- C8: attribute determinism. Two faces that agree on `flags & 0x03` and on the texture
index, whose descriptors agree on whether `fileName[0]` is 0 and on the colour, get equal
attributes under the same texture base; the other flag bits, the reserved bytes, the
normal, the vertex indexes and the later file name bytes play no part. -/
theorem C8_attribute_determinism (f1 f2 : TmfFace) (t1 t2 : TmfTexture) (textureOffset : Int)
    (hflags : f1.Flags &&& 3 = f2.Flags &&& 3) (hidx : f1.Texture = f2.Texture)
    (hname : t1.FileName.getD 0 0 = 0 ↔ t2.FileName.getD 0 0 = 0)
    (hcolor : t1.color = t2.color) :
    faceAttribute f1 t1 textureOffset = faceAttribute f2 t2 textureOffset := by
  have hd : f1.Flags &&& Tmf_Face_Double = f2.Flags &&& Tmf_Face_Double :=
    land_one_of_land_three hflags
  have hm : f1.Flags &&& Tmf_Face_Meshed = f2.Flags &&& Tmf_Face_Meshed :=
    land_two_of_land_three hflags
  by_cases h : t1.FileName.getD 0 0 = 0
  · simp only [faceAttribute, if_pos h, if_pos (hname.mp h), hd, hm, hcolor]
  · simp only [faceAttribute, if_neg h, if_neg (fun h2 => h (hname.mpr h2)), hd, hm, hidx]

/-- C8, on two faces that differ in reserved flag bits, reserved bytes, normal and
indexes, and two descriptors that differ in the later file name bytes. -/
theorem C8_attribute_determinism_witness :
    faceAttribute ⟨[0, 0, 65536], [0, 1, 2, 3], 0x03, 0, [0, 0]⟩
        ⟨[84, 69, 88, 46, 84, 71, 65, 0, 0, 0, 0, 0, 0], [1, 2, 3]⟩ 7 =
      faceAttribute ⟨[65536, 0, 0], [3, 2, 1, 0], 0xFF, 0, [9, 9]⟩
        ⟨[65, 46, 84, 71, 65, 0, 0, 0, 0, 0, 0, 0, 0], [1, 2, 3]⟩ 7 :=
  C8_attribute_determinism _ _ _ _ 7 (by decide) (by decide) (by decide) (by decide)

/-- C9, refuted as stated: the buffer's model has one vertex and a face with indexes
`(0, 1, 2, 3)`; it loads, the mesh has `nbPoint = 1`, and the polygon stores the indexes
1, 2 and 3, none of which is below `nbPoint`. -/
theorem C9_vertex_index_counterexample :
    (ML_LoadMeshWithCustomTextureLoader (inMemory strayIndexBuffer zeroMemory) ""
      (constLoader 0) ()).meshes.map
        (fun m => (m.data.nbPoint, m.data.pltbl.map (fun q => q.Vertices),
          m.data.pltbl.map (fun q => q.Vertices.map (fun v => decide (v < m.data.nbPoint)))))
      = [(1, [[0, 1, 2, 3]], [[true, false, false, false]])] := by
  decide

/-- C9, amended: the loader stores the four `u16` indexes of each face record unchanged and
does not compare them with the vertex count: polygon entry `f` of mesh `i` holds exactly the
record's four indexes, so every stored index is below the mesh's `nbPoint` whenever the
four indexes of the face record in the buffer are below the model's verticesCount. -/
theorem C9_vertex_indexes_copied {σ : Type} (s : Stream) (dir : String)
    (texture_loader : TextureLoader σ) (engine : σ) (i f : Nat)
    (hi : i < readU8 s 2) (hf : f < faceCount s i) :
    ∃ m q, (ML_LoadMeshWithCustomTextureLoader s dir texture_loader engine).meshes[i]? = some m ∧
      m.data.pltbl[f]? = some q ∧
      q.Vertices = [readU16 s (faceBase s i f + 12), readU16 s (faceBase s i f + 14),
        readU16 s (faceBase s i f + 16), readU16 s (faceBase s i f + 18)] ∧
      ((∀ k, k < 4 → readU16 s (faceBase s i f + 12 + 2 * k) < verticesCount s i) →
        ∀ v ∈ q.Vertices, v < m.data.nbPoint) := by
  obtain ⟨m, hm, hn, hq, _⟩ := load_face s dir texture_loader engine i f hi hf
  refine ⟨m, _, hm, hq, rfl, ?_⟩
  intro hall v hv
  rw [hn]
  have h0 := hall 0 (by decide)
  have h1 := hall 1 (by decide)
  have h2 := hall 2 (by decide)
  have h3 := hall 3 (by decide)
  simp only [readFace, readTmfFace, List.range, List.range.loop, List.map, List.getD_cons_zero,
    List.getD_cons_succ, List.mem_cons, List.mem_singleton, List.not_mem_nil, or_false,
    Nat.mul_zero, Nat.add_zero, Nat.mul_one] at hv h0 h1 h2 h3
  rcases hv with rfl | rfl | rfl | rfl
  · exact h0
  · exact h1
  · exact h2
  · exact h3

/-- C9, amended, on the untextured quad: four vertices, stored indexes `(0, 1, 2, 3)`. -/
theorem C9_vertex_indexes_copied_witness :
    ∃ m q, (ML_LoadMeshWithCustomTextureLoader (inMemory untexturedQuad zeroMemory) ""
        (constLoader 0) ()).meshes[0]? = some m ∧
      m.data.pltbl[0]? = some q ∧ q.Vertices = [0, 1, 2, 3] ∧
      ∀ v ∈ q.Vertices, v < m.data.nbPoint := by
  obtain ⟨m, q, hm, hq, hv, hlt⟩ := C9_vertex_indexes_copied
    (inMemory untexturedQuad zeroMemory) "" (constLoader 0) () 0 0 (by decide) (by decide)
  exact ⟨m, q, hm, hq, hv, hlt (by decide)⟩

/-- C10: vertex decoding at sequential offsets. Component `k` of vertex `p` of mesh `i` is
the signed 32-bit big-endian value of the four bytes at offset `base_i + 4 + 12 * p + 4 * k`,
with `base_i = 8 + 16 * textureCount + sum over j < i of (4 + 12 * verticesCount_j +
24 * faceCount_j)`. -/
theorem C10_vertex_decoding {σ : Type} (s : Stream) (dir : String)
    (texture_loader : TextureLoader σ) (engine : σ) (i p k : Nat)
    (hi : i < readU8 s 2) (hp : p < verticesCount s i) (hk : k < 3) :
    ∃ m pt, (ML_LoadMeshWithCustomTextureLoader s dir texture_loader engine).meshes[i]? = some m ∧
      m.data.pntbl[p]? = some pt ∧
      pt[k]? = some (signedBigEndian32
        (readU8 s (modelBase s i + 4 + 12 * p + 4 * k))
        (readU8 s (modelBase s i + 4 + 12 * p + 4 * k + 1))
        (readU8 s (modelBase s i + 4 + 12 * p + 4 * k + 2))
        (readU8 s (modelBase s i + 4 + 12 * p + 4 * k + 3))) := by
  obtain ⟨m, hm, _, hpt⟩ := load_vertex s dir texture_loader engine i p hi hp
  refine ⟨m, _, hm, hpt, ?_⟩
  rw [readPoint_getElem? s XYZ _ k hk, readFIXED_eq_signedBigEndian32]

/-- C10, on the untextured quad: the Y component of vertex 3 is read from offset
`28 + 12 * 3 + 4 * 1` as -65536. -/
theorem C10_vertex_decoding_witness :
    ∃ m pt, (ML_LoadMeshWithCustomTextureLoader (inMemory untexturedQuad zeroMemory) ""
        (constLoader 0) ()).meshes[0]? = some m ∧
      m.data.pntbl[3]? = some pt ∧ pt[1]? = some (-65536) := by
  obtain ⟨m, pt, hm, hp, hk⟩ := C10_vertex_decoding
    (inMemory untexturedQuad zeroMemory) "" (constLoader 0) () 0 3 1
    (by decide) (by decide) (by decide)
  exact ⟨m, pt, hm, hp, hk.trans (by decide)⟩

/-- C11: face decoding. For model `i` and face `f < faceCount_i`, with the face record at
offset `base_i + 4 + 12 * verticesCount_i + 24 * f`: polygon entry `f` has as normal the
record's three signed 32-bit big-endian values and as vertex indexes the record's four
big-endian `u16` indexes in order, and attribute entry `f` is the attribute computed from
the record, whose flags and texture index are the bytes at record offsets 20 and 21. -/
theorem C11_face_decoding {σ : Type} (s : Stream) (dir : String)
    (texture_loader : TextureLoader σ) (engine : σ) (i f : Nat)
    (hi : i < readU8 s 2) (hf : f < faceCount s i) :
    faceBase s i f = modelBase s i + 4 + 12 * verticesCount s i + 24 * f ∧
    ∃ m q a, (ML_LoadMeshWithCustomTextureLoader s dir texture_loader engine).meshes[i]? = some m ∧
      m.data.pltbl[f]? = some q ∧ m.data.attbl[f]? = some a ∧
      q.norm =
        [signedBigEndian32 (readU8 s (faceBase s i f)) (readU8 s (faceBase s i f + 1))
            (readU8 s (faceBase s i f + 2)) (readU8 s (faceBase s i f + 3)),
         signedBigEndian32 (readU8 s (faceBase s i f + 4)) (readU8 s (faceBase s i f + 5))
            (readU8 s (faceBase s i f + 6)) (readU8 s (faceBase s i f + 7)),
         signedBigEndian32 (readU8 s (faceBase s i f + 8)) (readU8 s (faceBase s i f + 9))
            (readU8 s (faceBase s i f + 10)) (readU8 s (faceBase s i f + 11))] ∧
      q.Vertices =
        [256 * readU8 s (faceBase s i f + 12) + readU8 s (faceBase s i f + 13),
         256 * readU8 s (faceBase s i f + 14) + readU8 s (faceBase s i f + 15),
         256 * readU8 s (faceBase s i f + 16) + readU8 s (faceBase s i f + 17),
         256 * readU8 s (faceBase s i f + 18) + readU8 s (faceBase s i f + 19)] ∧
      a = faceAttribute (readTmfFace s (faceBase s i f))
        (readTmfTexture s (8 + 16 * readU8 s (faceBase s i f + 21)))
        (textureBaseOf s dir texture_loader engine) ∧
      (readTmfFace s (faceBase s i f)).Flags = readU8 s (faceBase s i f + 20) ∧
      (readTmfFace s (faceBase s i f)).Texture = readU8 s (faceBase s i f + 21) := by
  obtain ⟨m, hm, _, hq, ha⟩ := load_face s dir texture_loader engine i f hi hf
  refine ⟨rfl, m, _, _, hm, hq, ha, ?_, rfl, rfl, rfl, rfl⟩
  have hn : (readFace s 8 (textureBaseOf s dir texture_loader engine) (faceBase s i f)).1.norm =
      [readFIXED s (faceBase s i f), readFIXED s (faceBase s i f + 4),
        readFIXED s (faceBase s i f + 8)] := rfl
  rw [hn]
  simp only [readFIXED_eq_signedBigEndian32, Nat.add_assoc]

/-- C11, on the untextured quad: face 0 has the indexes `(0, 1, 2, 3)`. -/
theorem C11_face_decoding_witness :
    ∃ m q, (ML_LoadMeshWithCustomTextureLoader (inMemory untexturedQuad zeroMemory) ""
        (constLoader 0) ()).meshes[0]? = some m ∧
      m.data.pltbl[0]? = some q ∧ q.Vertices = [0, 1, 2, 3] := by
  obtain ⟨m, q, _, hm, hq, _, _, hv, _⟩ := (C11_face_decoding
    (inMemory untexturedQuad zeroMemory) "" (constLoader 0) () 0 0 (by decide) (by decide)).2
  exact ⟨m, q, hm, hq, hv.trans (by decide)⟩

/-- C12: trailing bytes are ignored. For a buffer `B` that the loader reads without leaving
it (it is at least as long as the grammar requires and every descriptor a face refers to
lies inside it) and every byte sequence `X`, loading `B ++ X` gives the same meshes, the
same count and the same engine state as loading `B`, whatever lies behind either buffer in
memory. -/
theorem C12_trailing_bytes_ignored {σ : Type} (B X : List Nat) (beyond beyond2 : Stream)
    (dir : String) (texture_loader : TextureLoader σ) (engine : σ)
    (hlen : requiredLength (inMemory B beyond) ≤ B.length)
    (htex : ∀ i f, i < readU8 (inMemory B beyond) 2 → f < faceCount (inMemory B beyond) i →
      8 + 16 * readU8 (inMemory B beyond) (faceBase (inMemory B beyond) i f + 21) + 16
        ≤ B.length) :
    (ML_LoadMeshWithCustomTextureLoader (inMemory (B ++ X) beyond2) dir texture_loader
        engine).meshes =
      (ML_LoadMeshWithCustomTextureLoader (inMemory B beyond) dir texture_loader engine).meshes ∧
    (ML_LoadMeshWithCustomTextureLoader (inMemory (B ++ X) beyond2) dir texture_loader
        engine).loaded =
      (ML_LoadMeshWithCustomTextureLoader (inMemory B beyond) dir texture_loader engine).loaded ∧
    (ML_LoadMeshWithCustomTextureLoader (inMemory (B ++ X) beyond2) dir texture_loader
        engine).engine =
      (ML_LoadMeshWithCustomTextureLoader (inMemory B beyond) dir texture_loader engine).engine := by
  have h := load_below (fun a ha => inMemory_append_below B X beyond beyond2 a ha) dir
    texture_loader engine hlen htex
  rw [h]
  exact ⟨rfl, rfl, rfl⟩

/-- C12, on the untextured quad followed by the bytes `01 02 03`. -/
theorem C12_trailing_bytes_ignored_witness :
    (ML_LoadMeshWithCustomTextureLoader (inMemory (untexturedQuad ++ [1, 2, 3]) zeroMemory) ""
        (constLoader 0) ()).meshes =
      (ML_LoadMeshWithCustomTextureLoader (inMemory untexturedQuad zeroMemory) ""
        (constLoader 0) ()).meshes :=
  (C12_trailing_bytes_ignored untexturedQuad [1, 2, 3] zeroMemory zeroMemory "" (constLoader 0) ()
    (by decide)
    (by
      intro i f hi hf
      have hi0 : i = 0 := by
        have : readU8 (inMemory untexturedQuad zeroMemory) 2 = 1 := by decide
        omega
      subst hi0
      have hf0 : f = 0 := by
        have : faceCount (inMemory untexturedQuad zeroMemory) 0 = 1 := by decide
        omega
      subst hf0
      decide)).1

/-- C13, refuted as stated: with an engine that answers -1 (a failed load) and then 5, the
default loader over the descriptors `"A.TGA"`, `"B.TGA"` returns 5, not the -1 the engine
returned for the first descriptor; and over `"A.TGA"` alone with the answer -1 it returns
-1 although a descriptor has a non-empty file name. -/
theorem C13_default_loader_counterexample :
    hasFileName textureA = true ∧
    (queueEngine "" textureA.FileName JO_COLOR_Transparent [-1, 5]).1 = -1 ∧
    (ML_BasicTextureLoader queueEngine [textureA, textureB] "" 2 [-1, 5]).1 = 5 ∧
    (ML_BasicTextureLoader queueEngine [textureA] "" 1 [-1]).1 = -1 := by
  decide

/-- C13, amended: `ML_BasicTextureLoader` keeps the first successful load. It returns the
first index the engine returned, in call order, that is not negative; if every load returned
a negative index it returns the last of them, and if no load was made it returns -1.
Hence, for every descriptor table and every engine load function for which the load of the
first descriptor with a non-empty file name does not return a negative index, it returns
the index the engine returned for that descriptor, and it returns -1 if and only if no
descriptor has a non-empty file name. -/
theorem C13_default_loader_result {σ : Type}
    (jo_sprite_add_tga : String → List Nat → Nat → σ → Int × σ) (table : List TmfTexture)
    (dir : String) (count : Nat) (engine : σ) :
    (ML_BasicTextureLoader (recordAnswers jo_sprite_add_tga) table dir count (engine, [])).1 =
      (ML_BasicTextureLoader jo_sprite_add_tga table dir count engine).1 ∧
    (ML_BasicTextureLoader jo_sprite_add_tga table dir count engine).1 =
      (match (ML_BasicTextureLoader (recordAnswers jo_sprite_add_tga) table dir count
          (engine, [])).2.2.find? (fun a => decide (0 ≤ a)) with
       | some a => a
       | none => (ML_BasicTextureLoader (recordAnswers jo_sprite_add_tga) table dir count
          (engine, [])).2.2.getLast?.getD (-1)) ∧
    (∀ t, (table.take count).find? (fun u => u.FileName.getD 0 0 != 0) = some t →
      0 ≤ (jo_sprite_add_tga dir t.FileName JO_COLOR_Transparent engine).1 →
      (ML_BasicTextureLoader jo_sprite_add_tga table dir count engine).1 =
        (jo_sprite_add_tga dir t.FileName JO_COLOR_Transparent engine).1) ∧
    ((∀ t, (table.take count).find? (fun u => u.FileName.getD 0 0 != 0) = some t →
        0 ≤ (jo_sprite_add_tga dir t.FileName JO_COLOR_Transparent engine).1) →
      ((ML_BasicTextureLoader jo_sprite_add_tga table dir count engine).1 = -1 ↔
        ∀ t ∈ table.take count, t.FileName.getD 0 0 = 0)) := by
  have hrec := basicTextureLoop_recordAnswers jo_sprite_add_tga dir (table.take count) (-1)
    engine []
  have hkept := basicTextureLoop_keptIndex jo_sprite_add_tga dir (table.take count) (-1) engine
    (by decide)
  have hfirst : ∀ t, (table.take count).find? hasFileName = some t →
      0 ≤ (jo_sprite_add_tga dir t.FileName JO_COLOR_Transparent engine).1 →
      (basicTextureLoop jo_sprite_add_tga dir (table.take count) (-1) engine).1 =
        (jo_sprite_add_tga dir t.FileName JO_COLOR_Transparent engine).1 :=
    fun t hf hok => basicTextureLoop_first_ok jo_sprite_add_tga dir (table.take count) (-1)
      engine t (by decide) hf hok
  refine ⟨?_, ?_, ?_, ?_⟩
  · simp only [ML_BasicTextureLoader, hrec]
  · simp only [ML_BasicTextureLoader, hrec, List.nil_append]
    exact hkept
  · intro t hf hok
    exact hfirst t hf hok
  · intro hall
    simp only [ML_BasicTextureLoader]
    cases hf : (table.take count).find? hasFileName with
    | none =>
      have hno : ∀ t ∈ table.take count, t.FileName.getD 0 0 = 0 := by
        intro t ht
        have h2 := List.find?_eq_none.mp hf t ht
        by_contra hne
        exact h2 ((hasFileName_iff t).mpr hne)
      rw [basicTextureLoop_no_name jo_sprite_add_tga dir _ _ _ hno]
      exact ⟨fun _ => hno, fun _ => rfl⟩
    | some t =>
      have hok := hall t hf
      rw [hfirst t hf hok]
      have hmem := List.mem_of_find?_eq_some hf
      have hp := List.find?_some hf
      constructor
      · intro h
        omega
      · intro h
        exact absurd (h t hmem) ((hasFileName_iff t).mp hp)

/-- C13, amended, on two runs. Over `"A.TGA"`, `"B.TGA"` with the engine answering -1 and
then 5, the loader returns 5, the first answer that is not negative. Over the table
red, `"A.TGA"` with the counting engine at index 3, the load of the first named descriptor
returns 3 and so does the loader. -/
theorem C13_default_loader_result_witness :
    (ML_BasicTextureLoader queueEngine [textureA, textureB] "" 2 [-1, 5]).1 = 5 ∧
    (ML_BasicTextureLoader countingEngine [textureRed, textureA] "" 2 3).1 = 3 ∧
    ((ML_BasicTextureLoader countingEngine [textureRed, textureA] "" 2 3).1 = -1 ↔
      ∀ t ∈ List.take 2 [textureRed, textureA], t.FileName.getD 0 0 = 0) :=
  ⟨(C13_default_loader_result queueEngine [textureA, textureB] "" 2 [-1, 5]).2.1.trans
      (by decide),
   ((C13_default_loader_result countingEngine [textureRed, textureA] "" 2 3).2.2.1 textureA
      (by decide) (by decide)).trans (by decide),
   (C13_default_loader_result countingEngine [textureRed, textureA] "" 2 3).2.2.2
      (fun t _ => Int.ofNat_nonneg _)⟩

/-- C15: default loader call sequence. Run over an engine load that records its calls,
`ML_BasicTextureLoader` adds to the record exactly one call for each of the first `count`
descriptors whose `FileName[0]` is not 0 and none for the others, in descriptor order, each
with the model directory, that descriptor's file name and the transparent colour key; the
recording changes neither the returned index nor the engine state. -/
theorem C15_default_loader_calls {σ : Type}
    (jo_sprite_add_tga : String → List Nat → Nat → σ → Int × σ) (table : List TmfTexture)
    (dir : String) (count : Nat) (engine : σ) (log : List (String × List Nat × Nat)) :
    (ML_BasicTextureLoader (recordCalls jo_sprite_add_tga) table dir count (engine, log)).2.2 =
      log ++ ((table.take count).filter fun t => t.FileName.getD 0 0 != 0).map
        (fun t => (dir, t.FileName, JO_COLOR_Transparent)) ∧
    (ML_BasicTextureLoader (recordCalls jo_sprite_add_tga) table dir count (engine, log)).1 =
      (ML_BasicTextureLoader jo_sprite_add_tga table dir count engine).1 ∧
    (ML_BasicTextureLoader (recordCalls jo_sprite_add_tga) table dir count (engine, log)).2.1 =
      (ML_BasicTextureLoader jo_sprite_add_tga table dir count engine).2 := by
  simp only [ML_BasicTextureLoader, basicTextureLoop_recordCalls]
  exact ⟨rfl, trivial, trivial⟩

/-- C16: texture indices are file-scoped. Two faces, in any two models of the buffer, whose
records have the same texture index byte and the same `flags & 0x03` get equal attribute
records: the descriptor is read from the one table at offset 8 and the texture base is the
one value the loader returned. -/
theorem C16_file_scoped_textures {σ : Type} (s : Stream) (dir : String)
    (texture_loader : TextureLoader σ) (engine : σ) (i1 i2 f1 f2 : Nat)
    (hi1 : i1 < readU8 s 2) (hi2 : i2 < readU8 s 2)
    (hf1 : f1 < faceCount s i1) (hf2 : f2 < faceCount s i2)
    (htex : readU8 s (faceBase s i1 f1 + 21) = readU8 s (faceBase s i2 f2 + 21))
    (hflags : readU8 s (faceBase s i1 f1 + 20) &&& 3 = readU8 s (faceBase s i2 f2 + 20) &&& 3) :
    ∃ m1 m2 a,
      (ML_LoadMeshWithCustomTextureLoader s dir texture_loader engine).meshes[i1]? = some m1 ∧
      (ML_LoadMeshWithCustomTextureLoader s dir texture_loader engine).meshes[i2]? = some m2 ∧
      m1.data.attbl[f1]? = some a ∧ m2.data.attbl[f2]? = some a := by
  obtain ⟨m1, hm1, _, _, ha1⟩ := load_face s dir texture_loader engine i1 f1 hi1 hf1
  obtain ⟨m2, hm2, _, _, ha2⟩ := load_face s dir texture_loader engine i2 f2 hi2 hf2
  refine ⟨m1, m2, _, hm1, hm2, ha1, ?_⟩
  rw [ha2]
  have e : (readFace s 8 (textureBaseOf s dir texture_loader engine) (faceBase s i2 f2)).2.1 =
      (readFace s 8 (textureBaseOf s dir texture_loader engine) (faceBase s i1 f1)).2.1 := by
    have ht : (readTmfFace s (faceBase s i2 f2)).Texture =
        (readTmfFace s (faceBase s i1 f1)).Texture := htex.symm
    simp only [readFace, ht]
    exact faceAttribute_of_agree _ _ _ _ _ hflags.symm ht Iff.rfl rfl
  rw [e]

/-- C16, on the two-model buffer with `"A.TGA"` loaded by the default loader at engine
index 3: the face of model 0 and the face of model 1 get the same attribute, with
`textureId` 3. -/
theorem C16_file_scoped_textures_witness :
    (∃ m1 m2 a,
      (ML_LoadMeshWithCustomTextureLoader (inMemory twoModelBuffer zeroMemory) ""
        (ML_BasicTextureLoader countingEngine) 3).meshes[0]? = some m1 ∧
      (ML_LoadMeshWithCustomTextureLoader (inMemory twoModelBuffer zeroMemory) ""
        (ML_BasicTextureLoader countingEngine) 3).meshes[1]? = some m2 ∧
      m1.data.attbl[0]? = some a ∧ m2.data.attbl[0]? = some a) ∧
    (ML_LoadMesh countingEngine (inMemory twoModelBuffer zeroMemory) "" 3).meshes.map
      (fun m => m.data.attbl.map (fun a => a.textureId)) = [[3], [3]] :=
  ⟨C16_file_scoped_textures (inMemory twoModelBuffer zeroMemory) ""
      (ML_BasicTextureLoader countingEngine) 3 0 1 0 0 (by decide) (by decide) (by decide)
      (by decide) (by decide) (by decide),
   by decide⟩

/-- C17: planeKind rule. The attribute's plane kind is `Dual_Plane` if and only if bit 0
(`0x01`, DOUBLE) of the face's flags is set, and `Single_Plane` if and only if it is not,
whatever the other flag bits, the descriptor and the texture base. -/
theorem C17_plane_kind (faceData : TmfFace) (texture : TmfTexture) (textureOffset : Int) :
    ((faceAttribute faceData texture textureOffset).planeKind = Dual_Plane ↔
      faceData.Flags.testBit 0 = true) ∧
    ((faceAttribute faceData texture textureOffset).planeKind = Single_Plane ↔
      faceData.Flags.testBit 0 = false) := by
  have hb := land_one_ne_zero_iff faceData.Flags
  by_cases h : faceData.Flags &&& Tmf_Face_Double ≠ 0
  · have ht : faceData.Flags.testBit 0 = true := hb.mp h
    simp only [faceAttribute, if_pos h, ht]
    exact ⟨by decide, by decide⟩
  · have ht : faceData.Flags.testBit 0 = false := by
      cases hc : faceData.Flags.testBit 0 with
      | false => rfl
      | true => exact absurd (hb.mpr hc) h
    simp only [faceAttribute, if_neg h, ht]
    exact ⟨by decide, by decide⟩

/-- C18: meshMode rule. The attribute's mesh mode is `CL32KRGB | MESHon` if and only if
bit 1 (`0x02`, MESHED) of the face's flags is set, and `CL32KRGB | MESHoff` if and only if
it is not, whatever the other flag bits, the descriptor and the texture base. -/
theorem C18_mesh_mode (faceData : TmfFace) (texture : TmfTexture) (textureOffset : Int) :
    ((faceAttribute faceData texture textureOffset).meshMode = (CL32KRGB ||| MESHon) ↔
      faceData.Flags.testBit 1 = true) ∧
    ((faceAttribute faceData texture textureOffset).meshMode = (CL32KRGB ||| MESHoff) ↔
      faceData.Flags.testBit 1 = false) := by
  have hb := land_two_ne_zero_iff faceData.Flags
  by_cases h : faceData.Flags &&& Tmf_Face_Meshed ≠ 0
  · have ht : faceData.Flags.testBit 1 = true := hb.mp h
    simp only [faceAttribute, if_pos h, ht]
    exact ⟨by decide, by decide⟩
  · have ht : faceData.Flags.testBit 1 = false := by
      cases hc : faceData.Flags.testBit 1 with
      | false => rfl
      | true => exact absurd (hb.mpr hc) h
    simp only [faceAttribute, if_neg h, ht]
    exact ⟨by decide, by decide⟩

/-- C19: texture loader integration. Run with a loader that records its calls, the load
adds exactly one call to the record: the table of the `textureCount` descriptors read from
offset 8 on, the caller's directory and `textureCount`; the engine is left in the state that
call produced; every attribute of every model is computed with the value that call
returned; and `ML_LoadMesh` is the same load with `ML_BasicTextureLoader` as the loader. -/
theorem C19_loader_integration {σ τ : Type} (s : Stream) (dir : String)
    (texture_loader : TextureLoader σ) (engine : σ)
    (log : List (List TmfTexture × String × Nat))
    (jo_sprite_add_tga : String → List Nat → Nat → τ → Int × τ) (sprites : τ) :
    (ML_LoadMeshWithCustomTextureLoader s dir (recordLoader texture_loader)
      (engine, log)).engine.2 =
      log ++ [((List.range (readU8 s 1)).map (fun k => readTmfTexture s (8 + 16 * k)), dir,
        readU8 s 1)] ∧
    (ML_LoadMeshWithCustomTextureLoader s dir (recordLoader texture_loader)
      (engine, log)).engine.1 =
      (texture_loader ((List.range (readU8 s 1)).map (fun k => readTmfTexture s (8 + 16 * k)))
        dir (readU8 s 1) engine).2 ∧
    (ML_LoadMeshWithCustomTextureLoader s dir (recordLoader texture_loader)
      (engine, log)).meshes =
      (ML_LoadMeshWithCustomTextureLoader s dir texture_loader engine).meshes ∧
    (∀ i f, i < readU8 s 2 → f < faceCount s i →
      ∃ m, (ML_LoadMeshWithCustomTextureLoader s dir texture_loader engine).meshes[i]? = some m ∧
        m.data.attbl[f]? = some
          (faceAttribute (readTmfFace s (faceBase s i f))
            (readTmfTexture s (8 + 16 * readU8 s (faceBase s i f + 21)))
            (texture_loader
              ((List.range (readU8 s 1)).map (fun k => readTmfTexture s (8 + 16 * k)))
              dir (readU8 s 1) engine).1)) ∧
    ML_LoadMesh jo_sprite_add_tga s dir sprites =
      ML_LoadMeshWithCustomTextureLoader s dir (ML_BasicTextureLoader jo_sprite_add_tga)
        sprites := by
  refine ⟨rfl, rfl, rfl, ?_, rfl⟩
  intro i f hi hf
  obtain ⟨m, hm, _, _, ha⟩ := load_face s dir texture_loader engine i f hi hf
  exact ⟨m, hm, ha⟩

/-- C19, on the textured quad with a loader that answers 7: one call is recorded, with the
one-descriptor table, and the face gets `textureId` 7. -/
theorem C19_loader_integration_witness :
    (ML_LoadMeshWithCustomTextureLoader (inMemory texturedQuad zeroMemory) "dir"
      (recordLoader (constLoader 7)) ((), [])).engine.2 =
      [([readTmfTexture (inMemory texturedQuad zeroMemory) 8], "dir", 1)] ∧
    ∃ m, (ML_LoadMeshWithCustomTextureLoader (inMemory texturedQuad zeroMemory) "dir"
        (constLoader 7) ()).meshes[0]? = some m ∧
      m.data.attbl[0]? = some
        (faceAttribute (readTmfFace (inMemory texturedQuad zeroMemory) 28)
          (readTmfTexture (inMemory texturedQuad zeroMemory) 8) 7) :=
  ⟨(C19_loader_integration (inMemory texturedQuad zeroMemory) "dir" (constLoader 7) () []
      countingEngine 0).1,
   (C19_loader_integration (inMemory texturedQuad zeroMemory) "dir" (constLoader 7) () []
      countingEngine 0).2.2.2.1 0 0 (by decide) (by decide)⟩

/-- C20: textureId wrap-around. For a face whose descriptor has a non-empty file name and
every integer texture base, the stored `textureId` is `(textureIdx + textureBase) mod 2^16`,
an unsigned 16-bit value; with texture index 0 and texture base -1 it is 65535, and when
`textureIdx + textureBase` is 0 modulo `2^16` it is the value of `No_Texture`. -/
theorem C20_texture_id_wraps (faceData : TmfFace) (texture : TmfTexture) (textureOffset : Int)
    (h : texture.FileName.getD 0 0 ≠ 0) :
    ((faceAttribute faceData texture textureOffset).textureId : Int) =
      ((faceData.Texture : Int) + textureOffset) % 65536 ∧
    (faceAttribute faceData texture textureOffset).textureId < 65536 ∧
    (faceData.Texture = 0 → textureOffset = -1 →
      (faceAttribute faceData texture textureOffset).textureId = 65535) ∧
    (((faceData.Texture : Int) + textureOffset) % 65536 = 0 →
      (faceAttribute faceData texture textureOffset).textureId = No_Texture) := by
  simp only [faceAttribute, if_neg h, toUShort, No_Texture]
  refine ⟨?_, ?_, ?_, ?_⟩
  · omega
  · omega
  · intro h0 h1
    subst h1
    rw [h0]
    rfl
  · intro h0
    omega

/-- C20, on the textured quad with texture base -1: the stored `textureId` is 65535. -/
theorem C20_texture_id_wraps_witness :
    (faceAttribute (readTmfFace (inMemory texturedQuad zeroMemory) 28)
      (readTmfTexture (inMemory texturedQuad zeroMemory) 8) (-1)).textureId = 65535 :=
  (C20_texture_id_wraps (readTmfFace (inMemory texturedQuad zeroMemory) 28)
    (readTmfTexture (inMemory texturedQuad zeroMemory) 8) (-1) (by decide)).2.2.1
    (by decide) rfl

end ModelLoader
